import Mathlib

/-!
# Verification of the MESH secp256k1 ECDSA utilities (`mesh_utils.py`)

Shallow embedding of the arithmetic in `src/mesh_utils.py`.  Python
big-integers become `Int`; Python's `%` on a positive modulus agrees with
`Int.emod` (both return a representative in `[0, modulus)`), and `x >> 1`
(resp. `>> 2`) on a non-negative value agrees with `x / 2` (resp. `x / 4`).
The two `while` loops of the source (`pow_mod_n`, `scal_mult_n`) are embedded
with an explicit fuel argument so that the definitions stay structurally
recursive and kernel-computable; the fuel supplied is provably larger than
the number of iterations the loop performs, and the loop exits by the same
guard (`P > 0`, `k_int > 0`) that the source uses, so the fuel never runs out.
-/

namespace Mesh

/-- `p` from `mesh_utils.py` line 9: the secp256k1 field modulus. -/
def p : Int := 0xFFFFFFFFFFFFFFFFFFFFFFFFFFFFFFFFFFFFFFFFFFFFFFFFFFFFFFFEFFFFFC2F

/-- `Gx` (line 10). -/
def Gx : Int := 0x79BE667EF9DCBBAC55A06295CE870B07029BFCDB2DCE28D959F2815B16F81798

/-- `Gy` (line 11). -/
def Gy : Int := 0x483ADA7726A3C4655DA4FBFC0E1108A8FD17B448A68554199C47D08FFB10D4B8

/-- `G = (Gx, Gy)` (line 12). -/
def G : Int × Int := (Gx, Gy)

/-- `O` (line 13): the group order, `n` in the literature. -/
def O : Int := 0xFFFFFFFFFFFFFFFFFFFFFFFFFFFFFFFEBAAEDCE6AF48A03BBFD25E8CD0364141

/-- The `while P > 0` loop of `pow_mod_n` (lines 54-60), fuelled.
State: `X` the running square, `Y` the accumulator, `P` the remaining
exponent.  Each iteration either squares `X` and halves `P` (when `P` is
even) or multiplies `Y` by `X` and decrements `P`. -/
def powModLoop (n : Int) : Nat → Int → Int → Int → Int
  | 0, _, Y, _ => Y
  | fuel + 1, X, Y, P =>
    if P > 0 then
      if P % 2 = 0 then powModLoop n fuel ((X * X) % n) Y (P / 2)
      else powModLoop n fuel X ((X * Y) % n) (P - 1)
    else Y

/-- `pow_mod_n(x, power, n)` (lines 49-62): binary exponentiation.
`P` strictly decreases at every iteration, so `power.toNat + 1` units of
fuel always outlast the loop. -/
def pow_mod_n (x power n : Int) : Int :=
  powModLoop n (power.toNat + 1) x 1 power

/-- `invert_n(x, n)` (lines 65-66): Fermat inversion `x^(n-2) mod n`.
The source's default argument `n=p` is supplied explicitly at call sites. -/
def invert_n (x n : Int) : Int :=
  pow_mod_n x (n - 2) n

/-- `elip_gety(x, posneg)` (lines 72-84): square-root based recovery of a
`y` with `y² = x³ + 7 (mod p)`, using `z^((p+1)/4)`. -/
def elip_gety (x posneg : Int) : Int :=
  let y2 := (pow_mod_n x 3 p + 7) % p
  let power := (p + 1) / 4
  let y := pow_mod_n y2 power p
  if posneg = 0 then y else (-1 * y) % p

/-- `elip_add(p1, p2)` (lines 88-118).  The three guards are transcribed
exactly as written in the source:
* line 90 compares only the `y` coordinates (`p1[1] == p - p2[1]`);
* line 92 is the chained comparison `p1[0] == p1[1] == 0`, i.e.
  `p1[0] == p1[1]` and `p1[1] == 0`;
* line 94 is the chained comparison `p2[0] == p2[0] == 0`, i.e.
  `p2[0] == p2[0]` and `p2[0] == 0`, which only constrains `p2[0]`. -/
def elip_add (p1 p2 : Int × Int) : Int × Int :=
  if p1.2 = p - p2.2 then (0, 0)
  else if p1.1 = p1.2 ∧ p1.2 = 0 then p2
  else if p2.1 = p2.1 ∧ p2.1 = 0 then p1
  else
    let m :=
      if p1 = p2 then
        (((3 * p1.1 * p1.1) % p) * invert_n ((2 * p1.2) % p) p) % p
      else
        (((p2.2 - p1.2) % p) * invert_n ((p2.1 - p1.1) % p) p) % p
    let x := (m * m - p1.1 - p2.1) % p
    let y := (p1.2 + m * (x - p1.1)) % p
    (x, p - y)

/-- The `while k_int > 0` loop of `scal_mult_n` (lines 137-142), fuelled.
State: `Pint` the running doubled point, `Pres` the accumulated sum,
`k` the remaining scalar. -/
def scalLoop : Nat → Int × Int → Int × Int → Int → Int × Int
  | 0, _, Pres, _ => Pres
  | fuel + 1, Pint, Pres, k =>
    if k > 0 then
      scalLoop fuel (elip_add Pint Pint)
        (if k % 2 = 1 then elip_add Pres Pint else Pres) (k / 2)
    else Pres

/-- `scal_mult_n(P, k)` (lines 123-144): double-and-add.  The source
asserts on `k < 0`; every use in this development has `k ≥ 0`, and for
`k < 0` this embedding returns the value of the (never-entered) loop's
accumulator.  `k` strictly decreases per iteration, so `k.toNat + 1`
units of fuel always outlast the loop. -/
def scal_mult_n (P : Int × Int) (k : Int) : Int × Int :=
  if k = 0 then (0, 0)
  else scalLoop (k.toNat + 1) P (0, 0) k

/-- The body of `get_sig` (lines 148-177) for one accepted entropy draw
`R`.  The source hashes the message (`m = sha256(mesg)`); here `m` is that
digest value.  The source also computes `pk = scal_mult_n(G, sk)` (line
150) but never uses it, and it retries the draw until `0 < R < O` and
`Rx ≠ 0`; those acceptance conditions appear as hypotheses of the theorems
below. -/
def get_sig_core (m sk R : Int) : Int × Int :=
  let Rp := scal_mult_n G R
  let Rx := Rp.1 % O
  let sf := (m + Rx * sk) % O
  let R_inv := invert_n R O
  ((sf * R_inv) % O, Rx)

/-- `ver_sig(mesg, pk, sig)` (lines 181-222), with `m` the digest of
`mesg` as in `get_sig_core`.  `none` models an `assert(False)` abort;
`some b` models a normal boolean return.  The range guard on line 187 is
transcribed exactly as written in the source (its second disjunct tests
`sf >= O`, not `Rx >= O`). -/
def ver_sig (m : Int) (pk : Int × Int) (sig : Int × Int) : Option Bool :=
  let sf := sig.1
  let Rx := sig.2
  if (sf < 1 ∨ sf ≥ O) ∨ (Rx < 1 ∨ sf ≥ O) then none
  else if elip_gety pk.1 0 ≠ pk.2 ∧ elip_gety pk.1 1 ≠ pk.2 then none
  else
    let Z := scal_mult_n G O
    if Z = pk then none
    else
      let Z2 := scal_mult_n pk O
      if Z2 ≠ Z then none
      else
        let sf_inv := invert_n sf O
        let U1 := (m * sf_inv) % O
        let U2 := (Rx * sf_inv) % O
        let P1 := scal_mult_n G U1
        let P2 := scal_mult_n pk U2
        let P := elip_add P1 P2
        if P.1 = Rx then some true else some false

/-!
## Kernel-computation infrastructure

The heavy concrete evaluations below (256-bit scalar multiplications) are
too deep for one direct kernel reduction, so they are chained through
chunk lemmas.  `powModLoopN` is a `Nat`-valued twin of `powModLoop`,
`elip_addT` a twin of `elip_add` built on it, and `runCh ch` runs `ch`
iterations of the `scal_mult_n` loop body.  Each twin is proved equal to
the source-derived definition, so every evaluation fact below is a fact
about `elip_add`/`scal_mult_n` themselves.
-/

/-- `Nat` twin of `powModLoop` (same structure, same fuel discipline). -/
def powModLoopN (n : Nat) : Nat → Nat → Nat → Nat → Nat
  | 0, _, Y, _ => Y
  | fuel + 1, X, Y, P =>
    if P > 0 then
      if P % 2 = 0 then powModLoopN n fuel ((X * X) % n) Y (P / 2)
      else powModLoopN n fuel X ((X * Y) % n) (P - 1)
    else Y

/-- `Nat` twin of `invert_n`. -/
def invert_nT (x n : Int) : Int :=
  (powModLoopN n.toNat ((n - 2).toNat + 1) x.toNat 1 (n - 2).toNat : Nat)

/-- Twin of `elip_add` whose two inversions run through `invert_nT`;
proved equal to `elip_add` in `elip_addT_eq`. -/
def elip_addT (p1 p2 : Int × Int) : Int × Int :=
  if p1.2 = p - p2.2 then (0, 0)
  else if p1.1 = p1.2 ∧ p1.2 = 0 then p2
  else if p2.1 = p2.1 ∧ p2.1 = 0 then p1
  else
    let m :=
      if p1 = p2 then
        (((3 * p1.1 * p1.1) % p) * invert_nT ((2 * p1.2) % p) p) % p
      else
        (((p2.2 - p1.2) % p) * invert_nT ((p2.1 - p1.1) % p) p) % p
    let x := (m * m - p1.1 - p2.1) % p
    let y := (p1.2 + m * (x - p1.1)) % p
    (x, p - y)

/-- One iteration of the `scal_mult_n` loop body (lines 137-142), on the
state `(P_int, P_res, k_int)`, via the twin `elip_addT`. -/
def scalStep : (Int × Int) × (Int × Int) × Int → (Int × Int) × (Int × Int) × Int
  | (Pint, Pres, k) =>
    (elip_addT Pint Pint, if k % 2 = 1 then elip_addT Pres Pint else Pres, k / 2)

/-- `runCh ch st` runs `ch` iterations of the loop body. -/
def runCh : Nat → (Int × Int) × (Int × Int) × Int → (Int × Int) × (Int × Int) × Int
  | 0, st => st
  | ch + 1, st => runCh ch (scalStep st)

/-- Curve membership as the spec states it (§3): coordinates reduced into
`[0, p)` and satisfying `y² = x³ + 7 (mod p)`. -/
abbrev onCurve (pt : Int × Int) : Prop :=
  0 ≤ pt.1 ∧ pt.1 < p ∧ 0 ≤ pt.2 ∧ pt.2 < p ∧
    (pt.2 * pt.2) % p = (pt.1 * pt.1 * pt.1 + 7) % p

/-- The GLV endomorphism scalar of secp256k1: `lam³ ≡ 1 (mod O)` and
multiplication by `lam` maps `(x, y)` to `((beta·x) mod p, y)`.  Used only
to build concrete inputs for the theorems below. -/
def lam : Int := 0x5363AD4CC05C30E0A5261C028812645A122E22EA20816678DF02967C1B23BD72

/-- The matching cube root of unity in the base field: `beta³ ≡ 1 (mod p)`. -/
def beta : Int := 0x7AE96A2B657C07106E64479EAC3434E99CF0497512F58995C1396C28719501EE

/-- Inputs accepted by `sha256`/`ripemd160` (lines 17-39): raw bytes, a
Python `int`, or a text string. -/
inductive HashInput where
  | bytes (b : List Nat)
  | int (i : Int)
  | str (s : String)

/-- `hash_string.to_bytes(32, byteorder='big')` (lines 21 and 33): the 32
big-endian bytes of `x`. -/
def toBytesBE32 (x : Nat) : List Nat :=
  (List.range 32).map (fun j => x / 256 ^ (31 - j) % 256)

/-- `sha256(hash_string)` (lines 17-25).  The external `hashlib` digest is
the parameter `h` (bytes hashed ↦ integer value of the hex digest), and
UTF-8 `encode()` is `String.toUTF8`.  `none` models the `OverflowError`
that `int.to_bytes(32, 'big')` raises for integers outside `[0, 2^256)`
(negative, or too large for 32 bytes). -/
def sha256 (h : List Nat → Nat) : HashInput → Option Nat
  | .bytes b => some (h b)
  | .int i => if 0 ≤ i ∧ i < 2 ^ 256 then some (h (toBytesBE32 i.toNat)) else none
  | .str s => some (h (s.toUTF8.toList.map UInt8.toNat))

/-- `ripemd160(hash_string)` (lines 27-39): same input contract as
`sha256`, with its own digest parameter. -/
def ripemd160 (h : List Nat → Nat) : HashInput → Option Nat
  | .bytes b => some (h b)
  | .int i => if 0 ≤ i ∧ i < 2 ^ 256 then some (h (toBytesBE32 i.toNat)) else none
  | .str s => some (h (s.toUTF8.toList.map UInt8.toNat))


theorem powModLoopN_spec :
    ∀ (fuel : Nat) (n : Nat) (X Y P : Int), 0 ≤ X → 0 ≤ Y →
      powModLoop (n : Int) fuel X Y P = (powModLoopN n fuel X.toNat Y.toNat P.toNat : Nat) := by
  intro fuel
  induction fuel with
  | zero =>
    intro n X Y P hX hY
    simp [powModLoop, powModLoopN, Int.toNat_of_nonneg hY]
  | succ fuel ih =>
    intro n X Y P hX hY
    by_cases hP : P > 0
    · obtain ⟨x, rfl⟩ : ∃ x : Nat, X = (x : Int) := ⟨X.toNat, (Int.toNat_of_nonneg hX).symm⟩
      obtain ⟨y, rfl⟩ : ∃ y : Nat, Y = (y : Int) := ⟨Y.toNat, (Int.toNat_of_nonneg hY).symm⟩
      obtain ⟨q, rfl⟩ : ∃ q : Nat, P = (q : Int) :=
        ⟨P.toNat, (Int.toNat_of_nonneg hP.le).symm⟩
      have hq : q > 0 := by exact_mod_cast hP
      by_cases h2 : (q : Int) % 2 = 0
      · have h2n : q % 2 = 0 := by omega
        simp only [powModLoop, powModLoopN, if_pos hP, if_pos h2,
          Int.toNat_natCast, if_pos hq, if_pos h2n]
        have e1 : ((x : Int) * (x : Int)) % (n : Int) = ((x * x % n : Nat) : Int) := by
          push_cast; ring_nf
        have e2 : ((q : Int)) / 2 = ((q / 2 : Nat) : Int) := by omega
        rw [e1, e2, ih _ _ _ _ (Int.natCast_nonneg _) (Int.natCast_nonneg _)]
        simp only [Int.toNat_natCast]
      · have h2n : ¬ q % 2 = 0 := by omega
        simp only [powModLoop, powModLoopN, if_pos hP, if_neg h2,
          Int.toNat_natCast, if_pos hq, if_neg h2n]
        have e1 : ((x : Int) * (y : Int)) % (n : Int) = ((x * y % n : Nat) : Int) := by
          push_cast; ring_nf
        have e2 : ((q : Int)) - 1 = ((q - 1 : Nat) : Int) := by omega
        rw [e1, e2, ih _ _ _ _ (Int.natCast_nonneg _) (Int.natCast_nonneg _)]
        simp only [Int.toNat_natCast]
    · have hPn : P.toNat = 0 := by omega
      simp [powModLoop, powModLoopN, if_neg hP, hPn, Int.toNat_of_nonneg hY]

theorem invert_nT_eq (x n : Int) (hx : 0 ≤ x) (hn : 0 ≤ n) :
    invert_n x n = invert_nT x n := by
  obtain ⟨m, rfl⟩ : ∃ m : Nat, n = (m : Int) := ⟨n.toNat, (Int.toNat_of_nonneg hn).symm⟩
  rw [invert_n, invert_nT, pow_mod_n]
  rw [powModLoopN_spec _ _ _ _ _ hx (by norm_num)]
  simp

theorem elip_addT_eq (p1 p2 : Int × Int) : elip_add p1 p2 = elip_addT p1 p2 := by
  rw [elip_add, elip_addT]
  split
  · rfl
  split
  · rfl
  split
  · rfl
  rw [invert_nT_eq ((2 * p1.2) % p) p (Int.emod_nonneg _ (by decide)) (by decide),
    invert_nT_eq ((p2.1 - p1.1) % p) p (Int.emod_nonneg _ (by decide)) (by decide)]

/-- Unfolding `scal_mult_n` at a non-zero scalar. -/
theorem scal_mult_n_pos (P : Int × Int) (k : Int) (h : ¬ k = 0) :
    scal_mult_n P k = scalLoop (k.toNat + 1) P (0, 0) k := by
  simp [scal_mult_n, h]

/-- Running `ch` loop iterations via `runCh` agrees with `scalLoop`, as
long as the fuel and the scalar last through the chunk (`2^ch ≤ 2k+1`
guarantees `k` stays positive for `ch` successive halvings). -/
theorem scalLoop_runCh :
    ∀ (ch f f' : Nat) (A B : Int × Int) (k : Int) (A' B' : Int × Int) (k' : Int),
      f - ch = f' → runCh ch (A, B, k) = (A', B', k') → ch ≤ f →
      (2 : Int) ^ ch ≤ 2 * k + 1 → 0 ≤ k →
      scalLoop f A B k = scalLoop f' A' B' k' := by
  intro ch
  induction ch with
  | zero =>
    intro f f' A B k A' B' k' hf hr _ _ _
    simp only [runCh, Prod.mk.injEq] at hr
    obtain ⟨rfl, rfl, rfl⟩ := hr
    have : f' = f := by omega
    subst this
    rfl
  | succ ch ih =>
    intro f f' A B k A' B' k' hf hr hle hk hk0
    have hc1 : (0 : Int) < 2 ^ ch := by positivity
    have h2c : (2 : Int) ^ (ch + 1) = 2 * 2 ^ ch := by ring
    have hkpos : 0 < k := by
      rw [h2c] at hk
      generalize (2 : Int) ^ ch = c at hk hc1
      omega
    obtain ⟨f0, rfl⟩ : ∃ f0, f = f0 + 1 := ⟨f - 1, by omega⟩
    have hstep : scalLoop (f0 + 1) A B k =
        scalLoop f0 (elip_add A A) (if k % 2 = 1 then elip_add B A else B) (k / 2) := by
      simp [scalLoop, hkpos]
    rw [hstep, elip_addT_eq A A, elip_addT_eq B A]
    have hrun : runCh (ch + 1) (A, B, k) =
        runCh ch (elip_addT A A, if k % 2 = 1 then elip_addT B A else B, k / 2) := rfl
    rw [hrun] at hr
    refine ih f0 f' _ _ _ _ _ _ (by omega) hr (by omega) ?_ ?_
    · rw [h2c] at hk
      generalize (2 : Int) ^ ch = c at hk hc1 ⊢
      omega
    · omega

/-!
## Concrete evaluation facts (chunked kernel computations)
-/

set_option maxRecDepth 200000

theorem chO_0 : runCh 16 (G, ((0 : Int), (0 : Int)), O) = (((24533671068980092868630552346995129420983823672304585196401986911541584152128 : Int), (2209357222459695347071765155987393997305194371900031813817445740077485301225 : Int)), ((94913787221764930918395305492653186337662262006421321283318132192378151570664 : Int), (38121777075044651756879505076685935625833052072522374266672280044016621196774 : Int)), (1766847064778384329583297500742918515820885685410688848611528978599825462 : Int)) := by decide!
theorem chO_1 : runCh 16 (((24533671068980092868630552346995129420983823672304585196401986911541584152128 : Int), (2209357222459695347071765155987393997305194371900031813817445740077485301225 : Int)), ((94913787221764930918395305492653186337662262006421321283318132192378151570664 : Int), (38121777075044651756879505076685935625833052072522374266672280044016621196774 : Int)), (1766847064778384329583297500742918515820885685410688848611528978599825462 : Int)) = (((7263983490427117408129518121638485560698559702481803384958991237905117384112 : Int), (93109094002033366773627505914545361927166820241279828474630961892312310241801 : Int)), ((41618715794919262343288247885775468705279947972537888270396336879835196892309 : Int), (94880314162588594310192561282903645520579166239361797117295241397497651873235 : Int)), (26959946667150639794667015087019630673536463705607434823784316690060 : Int)) := by decide!
theorem chO_2 : runCh 16 (((7263983490427117408129518121638485560698559702481803384958991237905117384112 : Int), (93109094002033366773627505914545361927166820241279828474630961892312310241801 : Int)), ((41618715794919262343288247885775468705279947972537888270396336879835196892309 : Int), (94880314162588594310192561282903645520579166239361797117295241397497651873235 : Int)), (26959946667150639794667015087019630673536463705607434823784316690060 : Int)) = (((37796942232071066358676457518924870482193007026528914004372298991835746383808 : Int), (41500641220791808004786750540350768710904110215016898096683828744807363604936 : Int)), ((27762703325796909550034319905135946240294058406315182939056603236183625351842 : Int), (113667738956118784507605894520552320882824051857489728508054634122524566371753 : Int)), (411376139330301510538742295639337626244147700586050946407841746 : Int)) := by decide!
theorem chO_3 : runCh 16 (((37796942232071066358676457518924870482193007026528914004372298991835746383808 : Int), (41500641220791808004786750540350768710904110215016898096683828744807363604936 : Int)), ((27762703325796909550034319905135946240294058406315182939056603236183625351842 : Int), (113667738956118784507605894520552320882824051857489728508054634122524566371753 : Int)), (411376139330301510538742295639337626244147700586050946407841746 : Int)) = (((23129491278950567785970148376500648032717531886785241126168611397589814798013 : Int), (39307099057880941662675806615359097347682728603444928455093651353540932186784 : Int)), ((60136517557012337886219143441347989931997721743090658581626858228326433472322 : Int), (36561241511934786181747000543741354953016942877030566678373432424712287474694 : Int)), (6277101735386680763835789423207666416078913888336959021115 : Int)) := by decide!
theorem chO_4 : runCh 16 (((23129491278950567785970148376500648032717531886785241126168611397589814798013 : Int), (39307099057880941662675806615359097347682728603444928455093651353540932186784 : Int)), ((60136517557012337886219143441347989931997721743090658581626858228326433472322 : Int), (36561241511934786181747000543741354953016942877030566678373432424712287474694 : Int)), (6277101735386680763835789423207666416078913888336959021115 : Int)) = (((103585811642593135420456399622448891166663363501464111582343873522977792850477 : Int), (31409815155472435338582344935230131320197144774427706287861757740924066421722 : Int)), ((3799410324969024133081081695082414846245373966520493209198350038600691536914 : Int), (64590755570687246173876293161993570922670019950127150336867014279037138113218 : Int)), (95780971304118053647396689196894323975813505376235336 : Int)) := by decide!
theorem chO_5 : runCh 16 (((103585811642593135420456399622448891166663363501464111582343873522977792850477 : Int), (31409815155472435338582344935230131320197144774427706287861757740924066421722 : Int)), ((3799410324969024133081081695082414846245373966520493209198350038600691536914 : Int), (64590755570687246173876293161993570922670019950127150336867014279037138113218 : Int)), (95780971304118053647396689196894323975813505376235336 : Int)) = (((115183067000797961901920784023024616254245272923307973061240480176353201301430 : Int), (49763971281659542105744668679966078286699279184665337082856648066049033156975 : Int)), ((85822199919418065873158677931932224637840315064394798344509210798366262760486 : Int), (47043993167359473997990137877132683987732339713702799210771155580442464319499 : Int)), (1461501637330902918203684832716283019650474630374 : Int)) := by decide!
theorem chO_6 : runCh 16 (((115183067000797961901920784023024616254245272923307973061240480176353201301430 : Int), (49763971281659542105744668679966078286699279184665337082856648066049033156975 : Int)), ((85822199919418065873158677931932224637840315064394798344509210798366262760486 : Int), (47043993167359473997990137877132683987732339713702799210771155580442464319499 : Int)), (1461501637330902918203684832716283019650474630374 : Int)) = (((83611758343266467712438158213251624839283837284463888705796077990149381123587 : Int), (18101124850041158815009009485735144088925930424123803647507665853537289369319 : Int)), ((69583153015791561848491236522420332279446720326520150735477129200128611100578 : Int), (54442876088266950041552228116867279466264916861574397804557819670187343850859 : Int)), (22300745198530623141535718272648361505897134 : Int)) := by decide!
theorem chO_7 : runCh 16 (((83611758343266467712438158213251624839283837284463888705796077990149381123587 : Int), (18101124850041158815009009485735144088925930424123803647507665853537289369319 : Int)), ((69583153015791561848491236522420332279446720326520150735477129200128611100578 : Int), (54442876088266950041552228116867279466264916861574397804557819670187343850859 : Int)), (22300745198530623141535718272648361505897134 : Int)) = (((64865771952738249789114440545196421582918768733599534045195125031385885360346 : Int), (46211216742671250426576585530459394900178019437443360579906162037052661563266 : Int)), ((32256737403791914686372586254330362595305275169830061794707745295581356675058 : Int), (81527510300654142997208084696556813307392657339414968740384212117171109925658 : Int)), (340282366920938463463374607431768211454 : Int)) := by decide!
theorem chO_8 : runCh 16 (((64865771952738249789114440545196421582918768733599534045195125031385885360346 : Int), (46211216742671250426576585530459394900178019437443360579906162037052661563266 : Int)), ((32256737403791914686372586254330362595305275169830061794707745295581356675058 : Int), (81527510300654142997208084696556813307392657339414968740384212117171109925658 : Int)), (340282366920938463463374607431768211454 : Int)) = (((82443941766934163206572457262087615792206098199618204196957878539943664124143 : Int), (2933900802655320228371872386727285565009607891164205160519475145640485435973 : Int)), ((22551397232250930154134754775306783641591530410463695625277699798220437219399 : Int), (22300401800434807498397191466715504535300228199893767604777531771471628865102 : Int)), (5192296858534827628530496329220095 : Int)) := by decide!
theorem chO_9 : runCh 16 (((82443941766934163206572457262087615792206098199618204196957878539943664124143 : Int), (2933900802655320228371872386727285565009607891164205160519475145640485435973 : Int)), ((22551397232250930154134754775306783641591530410463695625277699798220437219399 : Int), (22300401800434807498397191466715504535300228199893767604777531771471628865102 : Int)), (5192296858534827628530496329220095 : Int)) = (((70661691742434068036519986667419907196041281127668848645928138120846244813005 : Int), (100286785047006832236729389681182172543048508833941702006321829459516874054045 : Int)), ((82573376505735398797749460473420703975557479532007200170569724442995876740115 : Int), (39299027964379713774792743053537718647474776468391445360563566742887773271967 : Int)), (79228162514264337593543950335 : Int)) := by decide!
theorem chO_10 : runCh 16 (((70661691742434068036519986667419907196041281127668848645928138120846244813005 : Int), (100286785047006832236729389681182172543048508833941702006321829459516874054045 : Int)), ((82573376505735398797749460473420703975557479532007200170569724442995876740115 : Int), (39299027964379713774792743053537718647474776468391445360563566742887773271967 : Int)), (79228162514264337593543950335 : Int)) = (((4142520438525914541011842624208056062406705649998025173845082041682105009068 : Int), (87900869236804138087371702825961176259461360124819616238035200569139627100447 : Int)), ((22688283644905229582878684955816599114744435964831567715612498102492263638185 : Int), (25432323947914688525796610309512452751151618294517290768406018952511473076002 : Int)), (1208925819614629174706175 : Int)) := by decide!
theorem chO_11 : runCh 16 (((4142520438525914541011842624208056062406705649998025173845082041682105009068 : Int), (87900869236804138087371702825961176259461360124819616238035200569139627100447 : Int)), ((22688283644905229582878684955816599114744435964831567715612498102492263638185 : Int), (25432323947914688525796610309512452751151618294517290768406018952511473076002 : Int)), (1208925819614629174706175 : Int)) = (((106135013536326263233204638779771538367307463662639765758785315935371743257267 : Int), (86028625094535483850261571256264386723357163272666519397289099603747119225149 : Int)), ((19436059746748227418925458231805909355641770432714992717682190711891460146984 : Int), (25123249739837458872363581055900892661847146841399057288865559747995855903950 : Int)), (18446744073709551615 : Int)) := by decide!
theorem chO_12 : runCh 16 (((106135013536326263233204638779771538367307463662639765758785315935371743257267 : Int), (86028625094535483850261571256264386723357163272666519397289099603747119225149 : Int)), ((19436059746748227418925458231805909355641770432714992717682190711891460146984 : Int), (25123249739837458872363581055900892661847146841399057288865559747995855903950 : Int)), (18446744073709551615 : Int)) = (((113220891681512744492539364929916345410061947313878915456447722256969001660153 : Int), (48632069096637554924274413793295750001160491151445521927536133070043743201297 : Int)), ((109961148091824176007590053632285201349622686517333656494286472429021334697930 : Int), (94501178915109615761365616122845036057831010861487347292135005418156124398201 : Int)), (281474976710655 : Int)) := by decide!
theorem chO_13 : runCh 16 (((113220891681512744492539364929916345410061947313878915456447722256969001660153 : Int), (48632069096637554924274413793295750001160491151445521927536133070043743201297 : Int)), ((109961148091824176007590053632285201349622686517333656494286472429021334697930 : Int), (94501178915109615761365616122845036057831010861487347292135005418156124398201 : Int)), (281474976710655 : Int)) = (((67655380319953589260148826173219524241109847135242745518793369102772071675834 : Int), (21029601506232444319368385136955684033497833311867654114423309422350207087357 : Int)), ((78286964671916748464002077903524610882307428783999554209283543510913862216099 : Int), (69208207262524231989781998869308227471702474397686588373130614081572599272393 : Int)), (4294967295 : Int)) := by decide!
theorem chO_14 : runCh 16 (((67655380319953589260148826173219524241109847135242745518793369102772071675834 : Int), (21029601506232444319368385136955684033497833311867654114423309422350207087357 : Int)), ((78286964671916748464002077903524610882307428783999554209283543510913862216099 : Int), (69208207262524231989781998869308227471702474397686588373130614081572599272393 : Int)), (4294967295 : Int)) = (((8718136510001795340016406650816398436241492966773881626425334457414292825707 : Int), (47828698862917730813607230394980222348159325738755616817276492989172802309159 : Int)), ((1081612414056764282020452592787223287568754890085769046997177576205063339491 : Int), (44747613108632260717822144637987652971391392858915576291280779809256471377238 : Int)), (65535 : Int)) := by decide!
theorem chO_15 : runCh 16 (((8718136510001795340016406650816398436241492966773881626425334457414292825707 : Int), (47828698862917730813607230394980222348159325738755616817276492989172802309159 : Int)), ((1081612414056764282020452592787223287568754890085769046997177576205063339491 : Int), (44747613108632260717822144637987652971391392858915576291280779809256471377238 : Int)), (65535 : Int)) = (((100056811408208733275829432225571761443897154861420255832015183193056831248263 : Int), (55225563209553524050574769423916742683973132338171759239001668957831436739955 : Int)), ((0 : Int), (0 : Int)), (0 : Int)) := by decide!

theorem scal_G_O : scal_mult_n G O = ((0 : Int), (0 : Int)) := by
  rw [scal_mult_n_pos G O (by decide)]
  rw [scalLoop_runCh 16 (O.toNat + 1) 115792089237316195423570985008687907852837564279074904382605163141518161494322 G ((0 : Int), (0 : Int)) O ((24533671068980092868630552346995129420983823672304585196401986911541584152128 : Int), (2209357222459695347071765155987393997305194371900031813817445740077485301225 : Int)) ((94913787221764930918395305492653186337662262006421321283318132192378151570664 : Int), (38121777075044651756879505076685935625833052072522374266672280044016621196774 : Int)) (1766847064778384329583297500742918515820885685410688848611528978599825462 : Int) (by decide) chO_0 (by decide) (by decide) (by decide)]
  rw [scalLoop_runCh 16 (115792089237316195423570985008687907852837564279074904382605163141518161494322) 115792089237316195423570985008687907852837564279074904382605163141518161494306 ((24533671068980092868630552346995129420983823672304585196401986911541584152128 : Int), (2209357222459695347071765155987393997305194371900031813817445740077485301225 : Int)) ((94913787221764930918395305492653186337662262006421321283318132192378151570664 : Int), (38121777075044651756879505076685935625833052072522374266672280044016621196774 : Int)) (1766847064778384329583297500742918515820885685410688848611528978599825462 : Int) ((7263983490427117408129518121638485560698559702481803384958991237905117384112 : Int), (93109094002033366773627505914545361927166820241279828474630961892312310241801 : Int)) ((41618715794919262343288247885775468705279947972537888270396336879835196892309 : Int), (94880314162588594310192561282903645520579166239361797117295241397497651873235 : Int)) (26959946667150639794667015087019630673536463705607434823784316690060 : Int) (by decide) chO_1 (by decide) (by decide) (by decide)]
  rw [scalLoop_runCh 16 (115792089237316195423570985008687907852837564279074904382605163141518161494306) 115792089237316195423570985008687907852837564279074904382605163141518161494290 ((7263983490427117408129518121638485560698559702481803384958991237905117384112 : Int), (93109094002033366773627505914545361927166820241279828474630961892312310241801 : Int)) ((41618715794919262343288247885775468705279947972537888270396336879835196892309 : Int), (94880314162588594310192561282903645520579166239361797117295241397497651873235 : Int)) (26959946667150639794667015087019630673536463705607434823784316690060 : Int) ((37796942232071066358676457518924870482193007026528914004372298991835746383808 : Int), (41500641220791808004786750540350768710904110215016898096683828744807363604936 : Int)) ((27762703325796909550034319905135946240294058406315182939056603236183625351842 : Int), (113667738956118784507605894520552320882824051857489728508054634122524566371753 : Int)) (411376139330301510538742295639337626244147700586050946407841746 : Int) (by decide) chO_2 (by decide) (by decide) (by decide)]
  rw [scalLoop_runCh 16 (115792089237316195423570985008687907852837564279074904382605163141518161494290) 115792089237316195423570985008687907852837564279074904382605163141518161494274 ((37796942232071066358676457518924870482193007026528914004372298991835746383808 : Int), (41500641220791808004786750540350768710904110215016898096683828744807363604936 : Int)) ((27762703325796909550034319905135946240294058406315182939056603236183625351842 : Int), (113667738956118784507605894520552320882824051857489728508054634122524566371753 : Int)) (411376139330301510538742295639337626244147700586050946407841746 : Int) ((23129491278950567785970148376500648032717531886785241126168611397589814798013 : Int), (39307099057880941662675806615359097347682728603444928455093651353540932186784 : Int)) ((60136517557012337886219143441347989931997721743090658581626858228326433472322 : Int), (36561241511934786181747000543741354953016942877030566678373432424712287474694 : Int)) (6277101735386680763835789423207666416078913888336959021115 : Int) (by decide) chO_3 (by decide) (by decide) (by decide)]
  rw [scalLoop_runCh 16 (115792089237316195423570985008687907852837564279074904382605163141518161494274) 115792089237316195423570985008687907852837564279074904382605163141518161494258 ((23129491278950567785970148376500648032717531886785241126168611397589814798013 : Int), (39307099057880941662675806615359097347682728603444928455093651353540932186784 : Int)) ((60136517557012337886219143441347989931997721743090658581626858228326433472322 : Int), (36561241511934786181747000543741354953016942877030566678373432424712287474694 : Int)) (6277101735386680763835789423207666416078913888336959021115 : Int) ((103585811642593135420456399622448891166663363501464111582343873522977792850477 : Int), (31409815155472435338582344935230131320197144774427706287861757740924066421722 : Int)) ((3799410324969024133081081695082414846245373966520493209198350038600691536914 : Int), (64590755570687246173876293161993570922670019950127150336867014279037138113218 : Int)) (95780971304118053647396689196894323975813505376235336 : Int) (by decide) chO_4 (by decide) (by decide) (by decide)]
  rw [scalLoop_runCh 16 (115792089237316195423570985008687907852837564279074904382605163141518161494258) 115792089237316195423570985008687907852837564279074904382605163141518161494242 ((103585811642593135420456399622448891166663363501464111582343873522977792850477 : Int), (31409815155472435338582344935230131320197144774427706287861757740924066421722 : Int)) ((3799410324969024133081081695082414846245373966520493209198350038600691536914 : Int), (64590755570687246173876293161993570922670019950127150336867014279037138113218 : Int)) (95780971304118053647396689196894323975813505376235336 : Int) ((115183067000797961901920784023024616254245272923307973061240480176353201301430 : Int), (49763971281659542105744668679966078286699279184665337082856648066049033156975 : Int)) ((85822199919418065873158677931932224637840315064394798344509210798366262760486 : Int), (47043993167359473997990137877132683987732339713702799210771155580442464319499 : Int)) (1461501637330902918203684832716283019650474630374 : Int) (by decide) chO_5 (by decide) (by decide) (by decide)]
  rw [scalLoop_runCh 16 (115792089237316195423570985008687907852837564279074904382605163141518161494242) 115792089237316195423570985008687907852837564279074904382605163141518161494226 ((115183067000797961901920784023024616254245272923307973061240480176353201301430 : Int), (49763971281659542105744668679966078286699279184665337082856648066049033156975 : Int)) ((85822199919418065873158677931932224637840315064394798344509210798366262760486 : Int), (47043993167359473997990137877132683987732339713702799210771155580442464319499 : Int)) (1461501637330902918203684832716283019650474630374 : Int) ((83611758343266467712438158213251624839283837284463888705796077990149381123587 : Int), (18101124850041158815009009485735144088925930424123803647507665853537289369319 : Int)) ((69583153015791561848491236522420332279446720326520150735477129200128611100578 : Int), (54442876088266950041552228116867279466264916861574397804557819670187343850859 : Int)) (22300745198530623141535718272648361505897134 : Int) (by decide) chO_6 (by decide) (by decide) (by decide)]
  rw [scalLoop_runCh 16 (115792089237316195423570985008687907852837564279074904382605163141518161494226) 115792089237316195423570985008687907852837564279074904382605163141518161494210 ((83611758343266467712438158213251624839283837284463888705796077990149381123587 : Int), (18101124850041158815009009485735144088925930424123803647507665853537289369319 : Int)) ((69583153015791561848491236522420332279446720326520150735477129200128611100578 : Int), (54442876088266950041552228116867279466264916861574397804557819670187343850859 : Int)) (22300745198530623141535718272648361505897134 : Int) ((64865771952738249789114440545196421582918768733599534045195125031385885360346 : Int), (46211216742671250426576585530459394900178019437443360579906162037052661563266 : Int)) ((32256737403791914686372586254330362595305275169830061794707745295581356675058 : Int), (81527510300654142997208084696556813307392657339414968740384212117171109925658 : Int)) (340282366920938463463374607431768211454 : Int) (by decide) chO_7 (by decide) (by decide) (by decide)]
  rw [scalLoop_runCh 16 (115792089237316195423570985008687907852837564279074904382605163141518161494210) 115792089237316195423570985008687907852837564279074904382605163141518161494194 ((64865771952738249789114440545196421582918768733599534045195125031385885360346 : Int), (46211216742671250426576585530459394900178019437443360579906162037052661563266 : Int)) ((32256737403791914686372586254330362595305275169830061794707745295581356675058 : Int), (81527510300654142997208084696556813307392657339414968740384212117171109925658 : Int)) (340282366920938463463374607431768211454 : Int) ((82443941766934163206572457262087615792206098199618204196957878539943664124143 : Int), (2933900802655320228371872386727285565009607891164205160519475145640485435973 : Int)) ((22551397232250930154134754775306783641591530410463695625277699798220437219399 : Int), (22300401800434807498397191466715504535300228199893767604777531771471628865102 : Int)) (5192296858534827628530496329220095 : Int) (by decide) chO_8 (by decide) (by decide) (by decide)]
  rw [scalLoop_runCh 16 (115792089237316195423570985008687907852837564279074904382605163141518161494194) 115792089237316195423570985008687907852837564279074904382605163141518161494178 ((82443941766934163206572457262087615792206098199618204196957878539943664124143 : Int), (2933900802655320228371872386727285565009607891164205160519475145640485435973 : Int)) ((22551397232250930154134754775306783641591530410463695625277699798220437219399 : Int), (22300401800434807498397191466715504535300228199893767604777531771471628865102 : Int)) (5192296858534827628530496329220095 : Int) ((70661691742434068036519986667419907196041281127668848645928138120846244813005 : Int), (100286785047006832236729389681182172543048508833941702006321829459516874054045 : Int)) ((82573376505735398797749460473420703975557479532007200170569724442995876740115 : Int), (39299027964379713774792743053537718647474776468391445360563566742887773271967 : Int)) (79228162514264337593543950335 : Int) (by decide) chO_9 (by decide) (by decide) (by decide)]
  rw [scalLoop_runCh 16 (115792089237316195423570985008687907852837564279074904382605163141518161494178) 115792089237316195423570985008687907852837564279074904382605163141518161494162 ((70661691742434068036519986667419907196041281127668848645928138120846244813005 : Int), (100286785047006832236729389681182172543048508833941702006321829459516874054045 : Int)) ((82573376505735398797749460473420703975557479532007200170569724442995876740115 : Int), (39299027964379713774792743053537718647474776468391445360563566742887773271967 : Int)) (79228162514264337593543950335 : Int) ((4142520438525914541011842624208056062406705649998025173845082041682105009068 : Int), (87900869236804138087371702825961176259461360124819616238035200569139627100447 : Int)) ((22688283644905229582878684955816599114744435964831567715612498102492263638185 : Int), (25432323947914688525796610309512452751151618294517290768406018952511473076002 : Int)) (1208925819614629174706175 : Int) (by decide) chO_10 (by decide) (by decide) (by decide)]
  rw [scalLoop_runCh 16 (115792089237316195423570985008687907852837564279074904382605163141518161494162) 115792089237316195423570985008687907852837564279074904382605163141518161494146 ((4142520438525914541011842624208056062406705649998025173845082041682105009068 : Int), (87900869236804138087371702825961176259461360124819616238035200569139627100447 : Int)) ((22688283644905229582878684955816599114744435964831567715612498102492263638185 : Int), (25432323947914688525796610309512452751151618294517290768406018952511473076002 : Int)) (1208925819614629174706175 : Int) ((106135013536326263233204638779771538367307463662639765758785315935371743257267 : Int), (86028625094535483850261571256264386723357163272666519397289099603747119225149 : Int)) ((19436059746748227418925458231805909355641770432714992717682190711891460146984 : Int), (25123249739837458872363581055900892661847146841399057288865559747995855903950 : Int)) (18446744073709551615 : Int) (by decide) chO_11 (by decide) (by decide) (by decide)]
  rw [scalLoop_runCh 16 (115792089237316195423570985008687907852837564279074904382605163141518161494146) 115792089237316195423570985008687907852837564279074904382605163141518161494130 ((106135013536326263233204638779771538367307463662639765758785315935371743257267 : Int), (86028625094535483850261571256264386723357163272666519397289099603747119225149 : Int)) ((19436059746748227418925458231805909355641770432714992717682190711891460146984 : Int), (25123249739837458872363581055900892661847146841399057288865559747995855903950 : Int)) (18446744073709551615 : Int) ((113220891681512744492539364929916345410061947313878915456447722256969001660153 : Int), (48632069096637554924274413793295750001160491151445521927536133070043743201297 : Int)) ((109961148091824176007590053632285201349622686517333656494286472429021334697930 : Int), (94501178915109615761365616122845036057831010861487347292135005418156124398201 : Int)) (281474976710655 : Int) (by decide) chO_12 (by decide) (by decide) (by decide)]
  rw [scalLoop_runCh 16 (115792089237316195423570985008687907852837564279074904382605163141518161494130) 115792089237316195423570985008687907852837564279074904382605163141518161494114 ((113220891681512744492539364929916345410061947313878915456447722256969001660153 : Int), (48632069096637554924274413793295750001160491151445521927536133070043743201297 : Int)) ((109961148091824176007590053632285201349622686517333656494286472429021334697930 : Int), (94501178915109615761365616122845036057831010861487347292135005418156124398201 : Int)) (281474976710655 : Int) ((67655380319953589260148826173219524241109847135242745518793369102772071675834 : Int), (21029601506232444319368385136955684033497833311867654114423309422350207087357 : Int)) ((78286964671916748464002077903524610882307428783999554209283543510913862216099 : Int), (69208207262524231989781998869308227471702474397686588373130614081572599272393 : Int)) (4294967295 : Int) (by decide) chO_13 (by decide) (by decide) (by decide)]
  rw [scalLoop_runCh 16 (115792089237316195423570985008687907852837564279074904382605163141518161494114) 115792089237316195423570985008687907852837564279074904382605163141518161494098 ((67655380319953589260148826173219524241109847135242745518793369102772071675834 : Int), (21029601506232444319368385136955684033497833311867654114423309422350207087357 : Int)) ((78286964671916748464002077903524610882307428783999554209283543510913862216099 : Int), (69208207262524231989781998869308227471702474397686588373130614081572599272393 : Int)) (4294967295 : Int) ((8718136510001795340016406650816398436241492966773881626425334457414292825707 : Int), (47828698862917730813607230394980222348159325738755616817276492989172802309159 : Int)) ((1081612414056764282020452592787223287568754890085769046997177576205063339491 : Int), (44747613108632260717822144637987652971391392858915576291280779809256471377238 : Int)) (65535 : Int) (by decide) chO_14 (by decide) (by decide) (by decide)]
  rw [scalLoop_runCh 16 (115792089237316195423570985008687907852837564279074904382605163141518161494098) 115792089237316195423570985008687907852837564279074904382605163141518161494082 ((8718136510001795340016406650816398436241492966773881626425334457414292825707 : Int), (47828698862917730813607230394980222348159325738755616817276492989172802309159 : Int)) ((1081612414056764282020452592787223287568754890085769046997177576205063339491 : Int), (44747613108632260717822144637987652971391392858915576291280779809256471377238 : Int)) (65535 : Int) ((100056811408208733275829432225571761443897154861420255832015183193056831248263 : Int), (55225563209553524050574769423916742683973132338171759239001668957831436739955 : Int)) ((0 : Int), (0 : Int)) (0 : Int) (by decide) chO_15 (by decide) (by decide) (by decide)]
  decide!

theorem chk2_0 : runCh 16 (G, ((0 : Int), (0 : Int)), (78074008874160198520644763525212887401909906723592317393988542598630163514319 : Int)) = (((24533671068980092868630552346995129420983823672304585196401986911541584152128 : Int), (2209357222459695347071765155987393997305194371900031813817445740077485301225 : Int)), ((45628166500307996506245859868739031302060138696800391345498848642010925550633 : Int), (49831826078528829955189582274197426330864598917558075913277323721509534135382 : Int)), (1191314832674563576059642998126417349272306926324345663360420877054293266 : Int)) := by decide!
theorem chk2_1 : runCh 16 (((24533671068980092868630552346995129420983823672304585196401986911541584152128 : Int), (2209357222459695347071765155987393997305194371900031813817445740077485301225 : Int)), ((45628166500307996506245859868739031302060138696800391345498848642010925550633 : Int), (49831826078528829955189582274197426330864598917558075913277323721509534135382 : Int)), (1191314832674563576059642998126417349272306926324345663360420877054293266 : Int)) = (((7263983490427117408129518121638485560698559702481803384958991237905117384112 : Int), (93109094002033366773627505914545361927166820241279828474630961892312310241801 : Int)), ((50156672263004469712592222172472380521326296262863845146822095336303845079756 : Int), (8617887251553738074901895898716470180109416672114543735054368259657017951250 : Int)), (18178021738808648316339767427466085041386519261540918935553297074192 : Int)) := by decide!
theorem chk2_2 : runCh 16 (((7263983490427117408129518121638485560698559702481803384958991237905117384112 : Int), (93109094002033366773627505914545361927166820241279828474630961892312310241801 : Int)), ((50156672263004469712592222172472380521326296262863845146822095336303845079756 : Int), (8617887251553738074901895898716470180109416672114543735054368259657017951250 : Int)), (18178021738808648316339767427466085041386519261540918935553297074192 : Int)) = (((37796942232071066358676457518924870482193007026528914004372298991835746383808 : Int), (41500641220791808004786750540350768710904110215016898096683828744807363604936 : Int)), ((100752563009179781911388259621724957583972901766951167154787241410654252355286 : Int), (106328399751842708280352520626026563119150908853442753523003997094577388724404 : Int)), (277374599286020634709774283256013260519203479942946150750019791 : Int)) := by decide!
theorem chk2_3 : runCh 16 (((37796942232071066358676457518924870482193007026528914004372298991835746383808 : Int), (41500641220791808004786750540350768710904110215016898096683828744807363604936 : Int)), ((100752563009179781911388259621724957583972901766951167154787241410654252355286 : Int), (106328399751842708280352520626026563119150908853442753523003997094577388724404 : Int)), (277374599286020634709774283256013260519203479942946150750019791 : Int)) = (((23129491278950567785970148376500648032717531886785241126168611397589814798013 : Int), (39307099057880941662675806615359097347682728603444928455093651353540932186784 : Int)), ((54611469320379491221458484040836316663836339119556036556272911246250971261138 : Int), (1003382566374067557453852930111605678285140028008841105670646147261963216501 : Int)), (4232400501800851970058811695190632026965385130965364849090 : Int)) := by decide!
theorem chk2_4 : runCh 16 (((23129491278950567785970148376500648032717531886785241126168611397589814798013 : Int), (39307099057880941662675806615359097347682728603444928455093651353540932186784 : Int)), ((54611469320379491221458484040836316663836339119556036556272911246250971261138 : Int), (1003382566374067557453852930111605678285140028008841105670646147261963216501 : Int)), (4232400501800851970058811695190632026965385130965364849090 : Int)) = (((103585811642593135420456399622448891166663363501464111582343873522977792850477 : Int), (31409815155472435338582344935230131320197144774427706287861757740924066421722 : Int)), ((53996222498582860465314312195311792917078328390119034272168567564495824611532 : Int), (72957269855891727666107471300533843915152358818792114959298171572837234450226 : Int)), (64581306484998351593914973376321899825521623702474439 : Int)) := by decide!
theorem chk2_5 : runCh 16 (((103585811642593135420456399622448891166663363501464111582343873522977792850477 : Int), (31409815155472435338582344935230131320197144774427706287861757740924066421722 : Int)), ((53996222498582860465314312195311792917078328390119034272168567564495824611532 : Int), (72957269855891727666107471300533843915152358818792114959298171572837234450226 : Int)), (64581306484998351593914973376321899825521623702474439 : Int)) = (((115183067000797961901920784023024616254245272923307973061240480176353201301430 : Int), (49763971281659542105744668679966078286699279184665337082856648066049033156975 : Int)), ((85132579740989482049624637446057158417447419198681200951355838143168870072181 : Int), (3246580847308543164114850786126010690484387733250866591641849246158291290559 : Int)), (985432533035253167631759237309599301536890010108 : Int)) := by decide!
theorem chk2_6 : runCh 16 (((115183067000797961901920784023024616254245272923307973061240480176353201301430 : Int), (49763971281659542105744668679966078286699279184665337082856648066049033156975 : Int)), ((85132579740989482049624637446057158417447419198681200951355838143168870072181 : Int), (3246580847308543164114850786126010690484387733250866591641849246158291290559 : Int)), (985432533035253167631759237309599301536890010108 : Int)) = (((83611758343266467712438158213251624839283837284463888705796077990149381123587 : Int), (18101124850041158815009009485735144088925930424123803647507665853537289369319 : Int)), ((58611837762707653699752866797428921266139059389345325353450877252991767883501 : Int), (95242044497496232697534541307036154749874968533132559652166530939983877853565 : Int)), (15036507156909990961177966877893055748548736 : Int)) := by decide!
theorem chk2_7 : runCh 16 (((83611758343266467712438158213251624839283837284463888705796077990149381123587 : Int), (18101124850041158815009009485735144088925930424123803647507665853537289369319 : Int)), ((58611837762707653699752866797428921266139059389345325353450877252991767883501 : Int), (95242044497496232697534541307036154749874968533132559652166530939983877853565 : Int)), (15036507156909990961177966877893055748548736 : Int)) = (((64865771952738249789114440545196421582918768733599534045195125031385885360346 : Int), (46211216742671250426576585530459394900178019437443360579906162037052661563266 : Int)), ((31303230829326000434338706596322570472776246968688428490401218509536389211611 : Int), (108919099517042883549927922619488880468111110529733426154880725253739913904349 : Int)), (229438890944061141375396223112381832100 : Int)) := by decide!
theorem chk2_8 : runCh 16 (((64865771952738249789114440545196421582918768733599534045195125031385885360346 : Int), (46211216742671250426576585530459394900178019437443360579906162037052661563266 : Int)), ((31303230829326000434338706596322570472776246968688428490401218509536389211611 : Int), (108919099517042883549927922619488880468111110529733426154880725253739913904349 : Int)), (229438890944061141375396223112381832100 : Int)) = (((82443941766934163206572457262087615792206098199618204196957878539943664124143 : Int), (2933900802655320228371872386727285565009607891164205160519475145640485435973 : Int)), ((39338499022206879725462843109797462145849315194973327335206439651508068305786 : Int), (29687839677899251443651789871367247347623116411021658078583607145776973796376 : Int)), (3500959639649370443350162095831021 : Int)) := by decide!
theorem chk2_9 : runCh 16 (((82443941766934163206572457262087615792206098199618204196957878539943664124143 : Int), (2933900802655320228371872386727285565009607891164205160519475145640485435973 : Int)), ((39338499022206879725462843109797462145849315194973327335206439651508068305786 : Int), (29687839677899251443651789871367247347623116411021658078583607145776973796376 : Int)), (3500959639649370443350162095831021 : Int)) = (((70661691742434068036519986667419907196041281127668848645928138120846244813005 : Int), (100286785047006832236729389681182172543048508833941702006321829459516874054045 : Int)), ((98900993469514224686033454221246237807944436439541818469147022006743915466933 : Int), (70019805229251195948456450697804048562193096372198468488082427200719347179824 : Int)), (53420404657735755056002229245 : Int)) := by decide!
theorem chk2_10 : runCh 16 (((70661691742434068036519986667419907196041281127668848645928138120846244813005 : Int), (100286785047006832236729389681182172543048508833941702006321829459516874054045 : Int)), ((98900993469514224686033454221246237807944436439541818469147022006743915466933 : Int), (70019805229251195948456450697804048562193096372198468488082427200719347179824 : Int)), (53420404657735755056002229245 : Int)) = (((4142520438525914541011842624208056062406705649998025173845082041682105009068 : Int), (87900869236804138087371702825961176259461360124819616238035200569139627100447 : Int)), ((84294614159693516096083905754102909482586476041702706674992434011941799572118 : Int), (45210274933263160099708256541217283448437514227226477982955021642787740670521 : Int)), (815130686305782395263705 : Int)) := by decide!
theorem chk2_11 : runCh 16 (((4142520438525914541011842624208056062406705649998025173845082041682105009068 : Int), (87900869236804138087371702825961176259461360124819616238035200569139627100447 : Int)), ((84294614159693516096083905754102909482586476041702706674992434011941799572118 : Int), (45210274933263160099708256541217283448437514227226477982955021642787740670521 : Int)), (815130686305782395263705 : Int)) = (((106135013536326263233204638779771538367307463662639765758785315935371743257267 : Int), (86028625094535483850261571256264386723357163272666519397289099603747119225149 : Int)), ((73865998318492712654467171581764042444856636474997645049199505856320014456148 : Int), (17515613775855165047945611017137236460727161206034282203800878513773571630260 : Int)), (12437907200710790943 : Int)) := by decide!
theorem chk2_12 : runCh 16 (((106135013536326263233204638779771538367307463662639765758785315935371743257267 : Int), (86028625094535483850261571256264386723357163272666519397289099603747119225149 : Int)), ((73865998318492712654467171581764042444856636474997645049199505856320014456148 : Int), (17515613775855165047945611017137236460727161206034282203800878513773571630260 : Int)), (12437907200710790943 : Int)) = (((113220891681512744492539364929916345410061947313878915456447722256969001660153 : Int), (48632069096637554924274413793295750001160491151445521927536133070043743201297 : Int)), ((72104278854060847075373405023290793484238728454153752280368581782713394256953 : Int), (22945330859802115147169622265066088159535388781860438440326484967363184719074 : Int)), (189787402354595 : Int)) := by decide!
theorem chk2_13 : runCh 16 (((113220891681512744492539364929916345410061947313878915456447722256969001660153 : Int), (48632069096637554924274413793295750001160491151445521927536133070043743201297 : Int)), ((72104278854060847075373405023290793484238728454153752280368581782713394256953 : Int), (22945330859802115147169622265066088159535388781860438440326484967363184719074 : Int)), (189787402354595 : Int)) = (((67655380319953589260148826173219524241109847135242745518793369102772071675834 : Int), (21029601506232444319368385136955684033497833311867654114423309422350207087357 : Int)), ((72260630751920899067087821461993671881688475070177959267069429838736839243924 : Int), (76667121758002897189897708543930877323812604844015087765051951547428726788043 : Int)), (2895925939 : Int)) := by decide!
theorem chk2_14 : runCh 16 (((67655380319953589260148826173219524241109847135242745518793369102772071675834 : Int), (21029601506232444319368385136955684033497833311867654114423309422350207087357 : Int)), ((72260630751920899067087821461993671881688475070177959267069429838736839243924 : Int), (76667121758002897189897708543930877323812604844015087765051951547428726788043 : Int)), (2895925939 : Int)) = (((8718136510001795340016406650816398436241492966773881626425334457414292825707 : Int), (47828698862917730813607230394980222348159325738755616817276492989172802309159 : Int)), ((113840866119625895706134133035026499249733484677115340716657036116787070976820 : Int), (75731410704747615252765309720337271917555651044279941799304316728733707217682 : Int)), (44188 : Int)) := by decide!
theorem chk2_15 : runCh 16 (((8718136510001795340016406650816398436241492966773881626425334457414292825707 : Int), (47828698862917730813607230394980222348159325738755616817276492989172802309159 : Int)), ((113840866119625895706134133035026499249733484677115340716657036116787070976820 : Int), (75731410704747615252765309720337271917555651044279941799304316728733707217682 : Int)), (44188 : Int)) = (((100056811408208733275829432225571761443897154861420255832015183193056831248263 : Int), (55225563209553524050574769423916742683973132338171759239001668957831436739955 : Int)), ((85340279321737800624759429340272274763154997815782306132637707972559913914315 : Int), (83121579216557378445487899878180864668798711284981320763518679672151497189239 : Int)), (0 : Int)) := by decide!

theorem scal_G_k2 : scal_mult_n G (78074008874160198520644763525212887401909906723592317393988542598630163514319 : Int) = ((85340279321737800624759429340272274763154997815782306132637707972559913914315 : Int), (83121579216557378445487899878180864668798711284981320763518679672151497189239 : Int)) := by
  rw [scal_mult_n_pos G (78074008874160198520644763525212887401909906723592317393988542598630163514319 : Int) (by decide)]
  rw [scalLoop_runCh 16 ((78074008874160198520644763525212887401909906723592317393988542598630163514319 : Int).toNat + 1) 78074008874160198520644763525212887401909906723592317393988542598630163514304 G ((0 : Int), (0 : Int)) (78074008874160198520644763525212887401909906723592317393988542598630163514319 : Int) ((24533671068980092868630552346995129420983823672304585196401986911541584152128 : Int), (2209357222459695347071765155987393997305194371900031813817445740077485301225 : Int)) ((45628166500307996506245859868739031302060138696800391345498848642010925550633 : Int), (49831826078528829955189582274197426330864598917558075913277323721509534135382 : Int)) (1191314832674563576059642998126417349272306926324345663360420877054293266 : Int) (by decide) chk2_0 (by decide) (by decide) (by decide)]
  rw [scalLoop_runCh 16 (78074008874160198520644763525212887401909906723592317393988542598630163514304) 78074008874160198520644763525212887401909906723592317393988542598630163514288 ((24533671068980092868630552346995129420983823672304585196401986911541584152128 : Int), (2209357222459695347071765155987393997305194371900031813817445740077485301225 : Int)) ((45628166500307996506245859868739031302060138696800391345498848642010925550633 : Int), (49831826078528829955189582274197426330864598917558075913277323721509534135382 : Int)) (1191314832674563576059642998126417349272306926324345663360420877054293266 : Int) ((7263983490427117408129518121638485560698559702481803384958991237905117384112 : Int), (93109094002033366773627505914545361927166820241279828474630961892312310241801 : Int)) ((50156672263004469712592222172472380521326296262863845146822095336303845079756 : Int), (8617887251553738074901895898716470180109416672114543735054368259657017951250 : Int)) (18178021738808648316339767427466085041386519261540918935553297074192 : Int) (by decide) chk2_1 (by decide) (by decide) (by decide)]
  rw [scalLoop_runCh 16 (78074008874160198520644763525212887401909906723592317393988542598630163514288) 78074008874160198520644763525212887401909906723592317393988542598630163514272 ((7263983490427117408129518121638485560698559702481803384958991237905117384112 : Int), (93109094002033366773627505914545361927166820241279828474630961892312310241801 : Int)) ((50156672263004469712592222172472380521326296262863845146822095336303845079756 : Int), (8617887251553738074901895898716470180109416672114543735054368259657017951250 : Int)) (18178021738808648316339767427466085041386519261540918935553297074192 : Int) ((37796942232071066358676457518924870482193007026528914004372298991835746383808 : Int), (41500641220791808004786750540350768710904110215016898096683828744807363604936 : Int)) ((100752563009179781911388259621724957583972901766951167154787241410654252355286 : Int), (106328399751842708280352520626026563119150908853442753523003997094577388724404 : Int)) (277374599286020634709774283256013260519203479942946150750019791 : Int) (by decide) chk2_2 (by decide) (by decide) (by decide)]
  rw [scalLoop_runCh 16 (78074008874160198520644763525212887401909906723592317393988542598630163514272) 78074008874160198520644763525212887401909906723592317393988542598630163514256 ((37796942232071066358676457518924870482193007026528914004372298991835746383808 : Int), (41500641220791808004786750540350768710904110215016898096683828744807363604936 : Int)) ((100752563009179781911388259621724957583972901766951167154787241410654252355286 : Int), (106328399751842708280352520626026563119150908853442753523003997094577388724404 : Int)) (277374599286020634709774283256013260519203479942946150750019791 : Int) ((23129491278950567785970148376500648032717531886785241126168611397589814798013 : Int), (39307099057880941662675806615359097347682728603444928455093651353540932186784 : Int)) ((54611469320379491221458484040836316663836339119556036556272911246250971261138 : Int), (1003382566374067557453852930111605678285140028008841105670646147261963216501 : Int)) (4232400501800851970058811695190632026965385130965364849090 : Int) (by decide) chk2_3 (by decide) (by decide) (by decide)]
  rw [scalLoop_runCh 16 (78074008874160198520644763525212887401909906723592317393988542598630163514256) 78074008874160198520644763525212887401909906723592317393988542598630163514240 ((23129491278950567785970148376500648032717531886785241126168611397589814798013 : Int), (39307099057880941662675806615359097347682728603444928455093651353540932186784 : Int)) ((54611469320379491221458484040836316663836339119556036556272911246250971261138 : Int), (1003382566374067557453852930111605678285140028008841105670646147261963216501 : Int)) (4232400501800851970058811695190632026965385130965364849090 : Int) ((103585811642593135420456399622448891166663363501464111582343873522977792850477 : Int), (31409815155472435338582344935230131320197144774427706287861757740924066421722 : Int)) ((53996222498582860465314312195311792917078328390119034272168567564495824611532 : Int), (72957269855891727666107471300533843915152358818792114959298171572837234450226 : Int)) (64581306484998351593914973376321899825521623702474439 : Int) (by decide) chk2_4 (by decide) (by decide) (by decide)]
  rw [scalLoop_runCh 16 (78074008874160198520644763525212887401909906723592317393988542598630163514240) 78074008874160198520644763525212887401909906723592317393988542598630163514224 ((103585811642593135420456399622448891166663363501464111582343873522977792850477 : Int), (31409815155472435338582344935230131320197144774427706287861757740924066421722 : Int)) ((53996222498582860465314312195311792917078328390119034272168567564495824611532 : Int), (72957269855891727666107471300533843915152358818792114959298171572837234450226 : Int)) (64581306484998351593914973376321899825521623702474439 : Int) ((115183067000797961901920784023024616254245272923307973061240480176353201301430 : Int), (49763971281659542105744668679966078286699279184665337082856648066049033156975 : Int)) ((85132579740989482049624637446057158417447419198681200951355838143168870072181 : Int), (3246580847308543164114850786126010690484387733250866591641849246158291290559 : Int)) (985432533035253167631759237309599301536890010108 : Int) (by decide) chk2_5 (by decide) (by decide) (by decide)]
  rw [scalLoop_runCh 16 (78074008874160198520644763525212887401909906723592317393988542598630163514224) 78074008874160198520644763525212887401909906723592317393988542598630163514208 ((115183067000797961901920784023024616254245272923307973061240480176353201301430 : Int), (49763971281659542105744668679966078286699279184665337082856648066049033156975 : Int)) ((85132579740989482049624637446057158417447419198681200951355838143168870072181 : Int), (3246580847308543164114850786126010690484387733250866591641849246158291290559 : Int)) (985432533035253167631759237309599301536890010108 : Int) ((83611758343266467712438158213251624839283837284463888705796077990149381123587 : Int), (18101124850041158815009009485735144088925930424123803647507665853537289369319 : Int)) ((58611837762707653699752866797428921266139059389345325353450877252991767883501 : Int), (95242044497496232697534541307036154749874968533132559652166530939983877853565 : Int)) (15036507156909990961177966877893055748548736 : Int) (by decide) chk2_6 (by decide) (by decide) (by decide)]
  rw [scalLoop_runCh 16 (78074008874160198520644763525212887401909906723592317393988542598630163514208) 78074008874160198520644763525212887401909906723592317393988542598630163514192 ((83611758343266467712438158213251624839283837284463888705796077990149381123587 : Int), (18101124850041158815009009485735144088925930424123803647507665853537289369319 : Int)) ((58611837762707653699752866797428921266139059389345325353450877252991767883501 : Int), (95242044497496232697534541307036154749874968533132559652166530939983877853565 : Int)) (15036507156909990961177966877893055748548736 : Int) ((64865771952738249789114440545196421582918768733599534045195125031385885360346 : Int), (46211216742671250426576585530459394900178019437443360579906162037052661563266 : Int)) ((31303230829326000434338706596322570472776246968688428490401218509536389211611 : Int), (108919099517042883549927922619488880468111110529733426154880725253739913904349 : Int)) (229438890944061141375396223112381832100 : Int) (by decide) chk2_7 (by decide) (by decide) (by decide)]
  rw [scalLoop_runCh 16 (78074008874160198520644763525212887401909906723592317393988542598630163514192) 78074008874160198520644763525212887401909906723592317393988542598630163514176 ((64865771952738249789114440545196421582918768733599534045195125031385885360346 : Int), (46211216742671250426576585530459394900178019437443360579906162037052661563266 : Int)) ((31303230829326000434338706596322570472776246968688428490401218509536389211611 : Int), (108919099517042883549927922619488880468111110529733426154880725253739913904349 : Int)) (229438890944061141375396223112381832100 : Int) ((82443941766934163206572457262087615792206098199618204196957878539943664124143 : Int), (2933900802655320228371872386727285565009607891164205160519475145640485435973 : Int)) ((39338499022206879725462843109797462145849315194973327335206439651508068305786 : Int), (29687839677899251443651789871367247347623116411021658078583607145776973796376 : Int)) (3500959639649370443350162095831021 : Int) (by decide) chk2_8 (by decide) (by decide) (by decide)]
  rw [scalLoop_runCh 16 (78074008874160198520644763525212887401909906723592317393988542598630163514176) 78074008874160198520644763525212887401909906723592317393988542598630163514160 ((82443941766934163206572457262087615792206098199618204196957878539943664124143 : Int), (2933900802655320228371872386727285565009607891164205160519475145640485435973 : Int)) ((39338499022206879725462843109797462145849315194973327335206439651508068305786 : Int), (29687839677899251443651789871367247347623116411021658078583607145776973796376 : Int)) (3500959639649370443350162095831021 : Int) ((70661691742434068036519986667419907196041281127668848645928138120846244813005 : Int), (100286785047006832236729389681182172543048508833941702006321829459516874054045 : Int)) ((98900993469514224686033454221246237807944436439541818469147022006743915466933 : Int), (70019805229251195948456450697804048562193096372198468488082427200719347179824 : Int)) (53420404657735755056002229245 : Int) (by decide) chk2_9 (by decide) (by decide) (by decide)]
  rw [scalLoop_runCh 16 (78074008874160198520644763525212887401909906723592317393988542598630163514160) 78074008874160198520644763525212887401909906723592317393988542598630163514144 ((70661691742434068036519986667419907196041281127668848645928138120846244813005 : Int), (100286785047006832236729389681182172543048508833941702006321829459516874054045 : Int)) ((98900993469514224686033454221246237807944436439541818469147022006743915466933 : Int), (70019805229251195948456450697804048562193096372198468488082427200719347179824 : Int)) (53420404657735755056002229245 : Int) ((4142520438525914541011842624208056062406705649998025173845082041682105009068 : Int), (87900869236804138087371702825961176259461360124819616238035200569139627100447 : Int)) ((84294614159693516096083905754102909482586476041702706674992434011941799572118 : Int), (45210274933263160099708256541217283448437514227226477982955021642787740670521 : Int)) (815130686305782395263705 : Int) (by decide) chk2_10 (by decide) (by decide) (by decide)]
  rw [scalLoop_runCh 16 (78074008874160198520644763525212887401909906723592317393988542598630163514144) 78074008874160198520644763525212887401909906723592317393988542598630163514128 ((4142520438525914541011842624208056062406705649998025173845082041682105009068 : Int), (87900869236804138087371702825961176259461360124819616238035200569139627100447 : Int)) ((84294614159693516096083905754102909482586476041702706674992434011941799572118 : Int), (45210274933263160099708256541217283448437514227226477982955021642787740670521 : Int)) (815130686305782395263705 : Int) ((106135013536326263233204638779771538367307463662639765758785315935371743257267 : Int), (86028625094535483850261571256264386723357163272666519397289099603747119225149 : Int)) ((73865998318492712654467171581764042444856636474997645049199505856320014456148 : Int), (17515613775855165047945611017137236460727161206034282203800878513773571630260 : Int)) (12437907200710790943 : Int) (by decide) chk2_11 (by decide) (by decide) (by decide)]
  rw [scalLoop_runCh 16 (78074008874160198520644763525212887401909906723592317393988542598630163514128) 78074008874160198520644763525212887401909906723592317393988542598630163514112 ((106135013536326263233204638779771538367307463662639765758785315935371743257267 : Int), (86028625094535483850261571256264386723357163272666519397289099603747119225149 : Int)) ((73865998318492712654467171581764042444856636474997645049199505856320014456148 : Int), (17515613775855165047945611017137236460727161206034282203800878513773571630260 : Int)) (12437907200710790943 : Int) ((113220891681512744492539364929916345410061947313878915456447722256969001660153 : Int), (48632069096637554924274413793295750001160491151445521927536133070043743201297 : Int)) ((72104278854060847075373405023290793484238728454153752280368581782713394256953 : Int), (22945330859802115147169622265066088159535388781860438440326484967363184719074 : Int)) (189787402354595 : Int) (by decide) chk2_12 (by decide) (by decide) (by decide)]
  rw [scalLoop_runCh 16 (78074008874160198520644763525212887401909906723592317393988542598630163514112) 78074008874160198520644763525212887401909906723592317393988542598630163514096 ((113220891681512744492539364929916345410061947313878915456447722256969001660153 : Int), (48632069096637554924274413793295750001160491151445521927536133070043743201297 : Int)) ((72104278854060847075373405023290793484238728454153752280368581782713394256953 : Int), (22945330859802115147169622265066088159535388781860438440326484967363184719074 : Int)) (189787402354595 : Int) ((67655380319953589260148826173219524241109847135242745518793369102772071675834 : Int), (21029601506232444319368385136955684033497833311867654114423309422350207087357 : Int)) ((72260630751920899067087821461993671881688475070177959267069429838736839243924 : Int), (76667121758002897189897708543930877323812604844015087765051951547428726788043 : Int)) (2895925939 : Int) (by decide) chk2_13 (by decide) (by decide) (by decide)]
  rw [scalLoop_runCh 16 (78074008874160198520644763525212887401909906723592317393988542598630163514096) 78074008874160198520644763525212887401909906723592317393988542598630163514080 ((67655380319953589260148826173219524241109847135242745518793369102772071675834 : Int), (21029601506232444319368385136955684033497833311867654114423309422350207087357 : Int)) ((72260630751920899067087821461993671881688475070177959267069429838736839243924 : Int), (76667121758002897189897708543930877323812604844015087765051951547428726788043 : Int)) (2895925939 : Int) ((8718136510001795340016406650816398436241492966773881626425334457414292825707 : Int), (47828698862917730813607230394980222348159325738755616817276492989172802309159 : Int)) ((113840866119625895706134133035026499249733484677115340716657036116787070976820 : Int), (75731410704747615252765309720337271917555651044279941799304316728733707217682 : Int)) (44188 : Int) (by decide) chk2_14 (by decide) (by decide) (by decide)]
  rw [scalLoop_runCh 16 (78074008874160198520644763525212887401909906723592317393988542598630163514080) 78074008874160198520644763525212887401909906723592317393988542598630163514064 ((8718136510001795340016406650816398436241492966773881626425334457414292825707 : Int), (47828698862917730813607230394980222348159325738755616817276492989172802309159 : Int)) ((113840866119625895706134133035026499249733484677115340716657036116787070976820 : Int), (75731410704747615252765309720337271917555651044279941799304316728733707217682 : Int)) (44188 : Int) ((100056811408208733275829432225571761443897154861420255832015183193056831248263 : Int), (55225563209553524050574769423916742683973132338171759239001668957831436739955 : Int)) ((85340279321737800624759429340272274763154997815782306132637707972559913914315 : Int), (83121579216557378445487899878180864668798711284981320763518679672151497189239 : Int)) (0 : Int) (by decide) chk2_15 (by decide) (by decide) (by decide)]
  decide!

theorem chk3_0 : runCh 16 (G, ((0 : Int), (0 : Int)), (78074008874160198520644763525212887401909906723592317393988542598630163514320 : Int)) = (((24533671068980092868630552346995129420983823672304585196401986911541584152128 : Int), (2209357222459695347071765155987393997305194371900031813817445740077485301225 : Int)), ((47175233593313571194128423836041923471237159373998646171372353168358667192635 : Int), (4001388500975016223762325302355259724933189285012748221157080854166064157859 : Int)), (1191314832674563576059642998126417349272306926324345663360420877054293266 : Int)) := by decide!
theorem chk3_1 : runCh 16 (((24533671068980092868630552346995129420983823672304585196401986911541584152128 : Int), (2209357222459695347071765155987393997305194371900031813817445740077485301225 : Int)), ((47175233593313571194128423836041923471237159373998646171372353168358667192635 : Int), (4001388500975016223762325302355259724933189285012748221157080854166064157859 : Int)), (1191314832674563576059642998126417349272306926324345663360420877054293266 : Int)) = (((7263983490427117408129518121638485560698559702481803384958991237905117384112 : Int), (93109094002033366773627505914545361927166820241279828474630961892312310241801 : Int)), ((60278066400722357414872144172429095329544471296121296385027842698765792415050 : Int), (60954878458064698309145037286104324351071841299055263311158987626439378739540 : Int)), (18178021738808648316339767427466085041386519261540918935553297074192 : Int)) := by decide!
theorem chk3_2 : runCh 16 (((7263983490427117408129518121638485560698559702481803384958991237905117384112 : Int), (93109094002033366773627505914545361927166820241279828474630961892312310241801 : Int)), ((60278066400722357414872144172429095329544471296121296385027842698765792415050 : Int), (60954878458064698309145037286104324351071841299055263311158987626439378739540 : Int)), (18178021738808648316339767427466085041386519261540918935553297074192 : Int)) = (((37796942232071066358676457518924870482193007026528914004372298991835746383808 : Int), (41500641220791808004786750540350768710904110215016898096683828744807363604936 : Int)), ((84251920489343831603961551172657835271429593907985670837795206498448875922988 : Int), (13216430474827492489235078219489164659247587930524477924454119577333734940711 : Int)), (277374599286020634709774283256013260519203479942946150750019791 : Int)) := by decide!
theorem chk3_3 : runCh 16 (((37796942232071066358676457518924870482193007026528914004372298991835746383808 : Int), (41500641220791808004786750540350768710904110215016898096683828744807363604936 : Int)), ((84251920489343831603961551172657835271429593907985670837795206498448875922988 : Int), (13216430474827492489235078219489164659247587930524477924454119577333734940711 : Int)), (277374599286020634709774283256013260519203479942946150750019791 : Int)) = (((23129491278950567785970148376500648032717531886785241126168611397589814798013 : Int), (39307099057880941662675806615359097347682728603444928455093651353540932186784 : Int)), ((1695267382170083938961855292603065100184854811433421446155307384427396697781 : Int), (111867055542216026891696929603811037764009507876399693674120459268249530221086 : Int)), (4232400501800851970058811695190632026965385130965364849090 : Int)) := by decide!
theorem chk3_4 : runCh 16 (((23129491278950567785970148376500648032717531886785241126168611397589814798013 : Int), (39307099057880941662675806615359097347682728603444928455093651353540932186784 : Int)), ((1695267382170083938961855292603065100184854811433421446155307384427396697781 : Int), (111867055542216026891696929603811037764009507876399693674120459268249530221086 : Int)), (4232400501800851970058811695190632026965385130965364849090 : Int)) = (((103585811642593135420456399622448891166663363501464111582343873522977792850477 : Int), (31409815155472435338582344935230131320197144774427706287861757740924066421722 : Int)), ((90351911603890937562846861835166642969612291647358008335374572773912376963065 : Int), (29857732040128571243054078261380177945544308733207497758719145037551920400075 : Int)), (64581306484998351593914973376321899825521623702474439 : Int)) := by decide!
theorem chk3_5 : runCh 16 (((103585811642593135420456399622448891166663363501464111582343873522977792850477 : Int), (31409815155472435338582344935230131320197144774427706287861757740924066421722 : Int)), ((90351911603890937562846861835166642969612291647358008335374572773912376963065 : Int), (29857732040128571243054078261380177945544308733207497758719145037551920400075 : Int)), (64581306484998351593914973376321899825521623702474439 : Int)) = (((115183067000797961901920784023024616254245272923307973061240480176353201301430 : Int), (49763971281659542105744668679966078286699279184665337082856648066049033156975 : Int)), ((47452056446634073546604660030392009577625717941398406353904702378574114398353 : Int), (58442257959061762723079960166939330645257124615151921056206093068583392508955 : Int)), (985432533035253167631759237309599301536890010108 : Int)) := by decide!
theorem chk3_6 : runCh 16 (((115183067000797961901920784023024616254245272923307973061240480176353201301430 : Int), (49763971281659542105744668679966078286699279184665337082856648066049033156975 : Int)), ((47452056446634073546604660030392009577625717941398406353904702378574114398353 : Int), (58442257959061762723079960166939330645257124615151921056206093068583392508955 : Int)), (985432533035253167631759237309599301536890010108 : Int)) = (((83611758343266467712438158213251624839283837284463888705796077990149381123587 : Int), (18101124850041158815009009485735144088925930424123803647507665853537289369319 : Int)), ((21307953861493440847965408840558691329255437114780327568776445059070282401291 : Int), (60904972672523478438122375686842523546887675144749404612626847754391649369783 : Int)), (15036507156909990961177966877893055748548736 : Int)) := by decide!
theorem chk3_7 : runCh 16 (((83611758343266467712438158213251624839283837284463888705796077990149381123587 : Int), (18101124850041158815009009485735144088925930424123803647507665853537289369319 : Int)), ((21307953861493440847965408840558691329255437114780327568776445059070282401291 : Int), (60904972672523478438122375686842523546887675144749404612626847754391649369783 : Int)), (15036507156909990961177966877893055748548736 : Int)) = (((64865771952738249789114440545196421582918768733599534045195125031385885360346 : Int), (46211216742671250426576585530459394900178019437443360579906162037052661563266 : Int)), ((14805084040745023479799040859350927598669878150352726880675359361794483573348 : Int), (47662618432127361832831118269549520183840294553507060052135986630893934014238 : Int)), (229438890944061141375396223112381832100 : Int)) := by decide!
theorem chk3_8 : runCh 16 (((64865771952738249789114440545196421582918768733599534045195125031385885360346 : Int), (46211216742671250426576585530459394900178019437443360579906162037052661563266 : Int)), ((14805084040745023479799040859350927598669878150352726880675359361794483573348 : Int), (47662618432127361832831118269549520183840294553507060052135986630893934014238 : Int)), (229438890944061141375396223112381832100 : Int)) = (((82443941766934163206572457262087615792206098199618204196957878539943664124143 : Int), (2933900802655320228371872386727285565009607891164205160519475145640485435973 : Int)), ((28239380474696321126322990031353831704363867870076937255382699081493774095746 : Int), (84965874024085166943128034587819763766770457183832611410661557804582899442921 : Int)), (3500959639649370443350162095831021 : Int)) := by decide!
theorem chk3_9 : runCh 16 (((82443941766934163206572457262087615792206098199618204196957878539943664124143 : Int), (2933900802655320228371872386727285565009607891164205160519475145640485435973 : Int)), ((28239380474696321126322990031353831704363867870076937255382699081493774095746 : Int), (84965874024085166943128034587819763766770457183832611410661557804582899442921 : Int)), (3500959639649370443350162095831021 : Int)) = (((70661691742434068036519986667419907196041281127668848645928138120846244813005 : Int), (100286785047006832236729389681182172543048508833941702006321829459516874054045 : Int)), ((114301443445051186478774102895527423258961919316031024326063103953187986057586 : Int), (37462651749908792877450048728751471234175798056504674675389037321393755296704 : Int)), (53420404657735755056002229245 : Int)) := by decide!
theorem chk3_10 : runCh 16 (((70661691742434068036519986667419907196041281127668848645928138120846244813005 : Int), (100286785047006832236729389681182172543048508833941702006321829459516874054045 : Int)), ((114301443445051186478774102895527423258961919316031024326063103953187986057586 : Int), (37462651749908792877450048728751471234175798056504674675389037321393755296704 : Int)), (53420404657735755056002229245 : Int)) = (((4142520438525914541011842624208056062406705649998025173845082041682105009068 : Int), (87900869236804138087371702825961176259461360124819616238035200569139627100447 : Int)), ((31808869194103056066775545430983694266518881036890690433235233525073187295475 : Int), (8002186334821882510424118023241070619003333902275454110506395882015718441962 : Int)), (815130686305782395263705 : Int)) := by decide!
theorem chk3_11 : runCh 16 (((4142520438525914541011842624208056062406705649998025173845082041682105009068 : Int), (87900869236804138087371702825961176259461360124819616238035200569139627100447 : Int)), ((31808869194103056066775545430983694266518881036890690433235233525073187295475 : Int), (8002186334821882510424118023241070619003333902275454110506395882015718441962 : Int)), (815130686305782395263705 : Int)) = (((106135013536326263233204638779771538367307463662639765758785315935371743257267 : Int), (86028625094535483850261571256264386723357163272666519397289099603747119225149 : Int)), ((113473962346931387995712511484388781748580269936905779566632737003152765339566 : Int), (114636850668596247892293620761622565879575272820911903056648159806644661417466 : Int)), (12437907200710790943 : Int)) := by decide!
theorem chk3_12 : runCh 16 (((106135013536326263233204638779771538367307463662639765758785315935371743257267 : Int), (86028625094535483850261571256264386723357163272666519397289099603747119225149 : Int)), ((113473962346931387995712511484388781748580269936905779566632737003152765339566 : Int), (114636850668596247892293620761622565879575272820911903056648159806644661417466 : Int)), (12437907200710790943 : Int)) = (((113220891681512744492539364929916345410061947313878915456447722256969001660153 : Int), (48632069096637554924274413793295750001160491151445521927536133070043743201297 : Int)), ((58057150458434604480852547821533331107163769368974665226830848211038987960030 : Int), (106025393659094457526086966678766860874770967942083885830967603631105228589684 : Int)), (189787402354595 : Int)) := by decide!
theorem chk3_13 : runCh 16 (((113220891681512744492539364929916345410061947313878915456447722256969001660153 : Int), (48632069096637554924274413793295750001160491151445521927536133070043743201297 : Int)), ((58057150458434604480852547821533331107163769368974665226830848211038987960030 : Int), (106025393659094457526086966678766860874770967942083885830967603631105228589684 : Int)), (189787402354595 : Int)) = (((67655380319953589260148826173219524241109847135242745518793369102772071675834 : Int), (21029601506232444319368385136955684033497833311867654114423309422350207087357 : Int)), ((2894578971586051263822789592587085708329514165321182286536125691110742806198 : Int), (38669073686185320127396207254658888146051262097136046036468370844061573684274 : Int)), (2895925939 : Int)) := by decide!
theorem chk3_14 : runCh 16 (((67655380319953589260148826173219524241109847135242745518793369102772071675834 : Int), (21029601506232444319368385136955684033497833311867654114423309422350207087357 : Int)), ((2894578971586051263822789592587085708329514165321182286536125691110742806198 : Int), (38669073686185320127396207254658888146051262097136046036468370844061573684274 : Int)), (2895925939 : Int)) = (((8718136510001795340016406650816398436241492966773881626425334457414292825707 : Int), (47828698862917730813607230394980222348159325738755616817276492989172802309159 : Int)), ((86310828670271682716167014396171542454394520359671807822496397410300236480211 : Int), (84188175533582781272794016825264291094092792516631675340814365234446738857035 : Int)), (44188 : Int)) := by decide!
theorem chk3_15 : runCh 16 (((8718136510001795340016406650816398436241492966773881626425334457414292825707 : Int), (47828698862917730813607230394980222348159325738755616817276492989172802309159 : Int)), ((86310828670271682716167014396171542454394520359671807822496397410300236480211 : Int), (84188175533582781272794016825264291094092792516631675340814365234446738857035 : Int)), (44188 : Int)) = (((100056811408208733275829432225571761443897154861420255832015183193056831248263 : Int), (55225563209553524050574769423916742683973132338171759239001668957831436739955 : Int)), ((66837770201594535779099350687042404727408598709762866365333192677982385899440 : Int), (100652675408719987021357910538015346127426077519185866739835120963490438734674 : Int)), (0 : Int)) := by decide!

theorem scal_G_k3 : scal_mult_n G (78074008874160198520644763525212887401909906723592317393988542598630163514320 : Int) = ((66837770201594535779099350687042404727408598709762866365333192677982385899440 : Int), (100652675408719987021357910538015346127426077519185866739835120963490438734674 : Int)) := by
  rw [scal_mult_n_pos G (78074008874160198520644763525212887401909906723592317393988542598630163514320 : Int) (by decide)]
  rw [scalLoop_runCh 16 ((78074008874160198520644763525212887401909906723592317393988542598630163514320 : Int).toNat + 1) 78074008874160198520644763525212887401909906723592317393988542598630163514305 G ((0 : Int), (0 : Int)) (78074008874160198520644763525212887401909906723592317393988542598630163514320 : Int) ((24533671068980092868630552346995129420983823672304585196401986911541584152128 : Int), (2209357222459695347071765155987393997305194371900031813817445740077485301225 : Int)) ((47175233593313571194128423836041923471237159373998646171372353168358667192635 : Int), (4001388500975016223762325302355259724933189285012748221157080854166064157859 : Int)) (1191314832674563576059642998126417349272306926324345663360420877054293266 : Int) (by decide) chk3_0 (by decide) (by decide) (by decide)]
  rw [scalLoop_runCh 16 (78074008874160198520644763525212887401909906723592317393988542598630163514305) 78074008874160198520644763525212887401909906723592317393988542598630163514289 ((24533671068980092868630552346995129420983823672304585196401986911541584152128 : Int), (2209357222459695347071765155987393997305194371900031813817445740077485301225 : Int)) ((47175233593313571194128423836041923471237159373998646171372353168358667192635 : Int), (4001388500975016223762325302355259724933189285012748221157080854166064157859 : Int)) (1191314832674563576059642998126417349272306926324345663360420877054293266 : Int) ((7263983490427117408129518121638485560698559702481803384958991237905117384112 : Int), (93109094002033366773627505914545361927166820241279828474630961892312310241801 : Int)) ((60278066400722357414872144172429095329544471296121296385027842698765792415050 : Int), (60954878458064698309145037286104324351071841299055263311158987626439378739540 : Int)) (18178021738808648316339767427466085041386519261540918935553297074192 : Int) (by decide) chk3_1 (by decide) (by decide) (by decide)]
  rw [scalLoop_runCh 16 (78074008874160198520644763525212887401909906723592317393988542598630163514289) 78074008874160198520644763525212887401909906723592317393988542598630163514273 ((7263983490427117408129518121638485560698559702481803384958991237905117384112 : Int), (93109094002033366773627505914545361927166820241279828474630961892312310241801 : Int)) ((60278066400722357414872144172429095329544471296121296385027842698765792415050 : Int), (60954878458064698309145037286104324351071841299055263311158987626439378739540 : Int)) (18178021738808648316339767427466085041386519261540918935553297074192 : Int) ((37796942232071066358676457518924870482193007026528914004372298991835746383808 : Int), (41500641220791808004786750540350768710904110215016898096683828744807363604936 : Int)) ((84251920489343831603961551172657835271429593907985670837795206498448875922988 : Int), (13216430474827492489235078219489164659247587930524477924454119577333734940711 : Int)) (277374599286020634709774283256013260519203479942946150750019791 : Int) (by decide) chk3_2 (by decide) (by decide) (by decide)]
  rw [scalLoop_runCh 16 (78074008874160198520644763525212887401909906723592317393988542598630163514273) 78074008874160198520644763525212887401909906723592317393988542598630163514257 ((37796942232071066358676457518924870482193007026528914004372298991835746383808 : Int), (41500641220791808004786750540350768710904110215016898096683828744807363604936 : Int)) ((84251920489343831603961551172657835271429593907985670837795206498448875922988 : Int), (13216430474827492489235078219489164659247587930524477924454119577333734940711 : Int)) (277374599286020634709774283256013260519203479942946150750019791 : Int) ((23129491278950567785970148376500648032717531886785241126168611397589814798013 : Int), (39307099057880941662675806615359097347682728603444928455093651353540932186784 : Int)) ((1695267382170083938961855292603065100184854811433421446155307384427396697781 : Int), (111867055542216026891696929603811037764009507876399693674120459268249530221086 : Int)) (4232400501800851970058811695190632026965385130965364849090 : Int) (by decide) chk3_3 (by decide) (by decide) (by decide)]
  rw [scalLoop_runCh 16 (78074008874160198520644763525212887401909906723592317393988542598630163514257) 78074008874160198520644763525212887401909906723592317393988542598630163514241 ((23129491278950567785970148376500648032717531886785241126168611397589814798013 : Int), (39307099057880941662675806615359097347682728603444928455093651353540932186784 : Int)) ((1695267382170083938961855292603065100184854811433421446155307384427396697781 : Int), (111867055542216026891696929603811037764009507876399693674120459268249530221086 : Int)) (4232400501800851970058811695190632026965385130965364849090 : Int) ((103585811642593135420456399622448891166663363501464111582343873522977792850477 : Int), (31409815155472435338582344935230131320197144774427706287861757740924066421722 : Int)) ((90351911603890937562846861835166642969612291647358008335374572773912376963065 : Int), (29857732040128571243054078261380177945544308733207497758719145037551920400075 : Int)) (64581306484998351593914973376321899825521623702474439 : Int) (by decide) chk3_4 (by decide) (by decide) (by decide)]
  rw [scalLoop_runCh 16 (78074008874160198520644763525212887401909906723592317393988542598630163514241) 78074008874160198520644763525212887401909906723592317393988542598630163514225 ((103585811642593135420456399622448891166663363501464111582343873522977792850477 : Int), (31409815155472435338582344935230131320197144774427706287861757740924066421722 : Int)) ((90351911603890937562846861835166642969612291647358008335374572773912376963065 : Int), (29857732040128571243054078261380177945544308733207497758719145037551920400075 : Int)) (64581306484998351593914973376321899825521623702474439 : Int) ((115183067000797961901920784023024616254245272923307973061240480176353201301430 : Int), (49763971281659542105744668679966078286699279184665337082856648066049033156975 : Int)) ((47452056446634073546604660030392009577625717941398406353904702378574114398353 : Int), (58442257959061762723079960166939330645257124615151921056206093068583392508955 : Int)) (985432533035253167631759237309599301536890010108 : Int) (by decide) chk3_5 (by decide) (by decide) (by decide)]
  rw [scalLoop_runCh 16 (78074008874160198520644763525212887401909906723592317393988542598630163514225) 78074008874160198520644763525212887401909906723592317393988542598630163514209 ((115183067000797961901920784023024616254245272923307973061240480176353201301430 : Int), (49763971281659542105744668679966078286699279184665337082856648066049033156975 : Int)) ((47452056446634073546604660030392009577625717941398406353904702378574114398353 : Int), (58442257959061762723079960166939330645257124615151921056206093068583392508955 : Int)) (985432533035253167631759237309599301536890010108 : Int) ((83611758343266467712438158213251624839283837284463888705796077990149381123587 : Int), (18101124850041158815009009485735144088925930424123803647507665853537289369319 : Int)) ((21307953861493440847965408840558691329255437114780327568776445059070282401291 : Int), (60904972672523478438122375686842523546887675144749404612626847754391649369783 : Int)) (15036507156909990961177966877893055748548736 : Int) (by decide) chk3_6 (by decide) (by decide) (by decide)]
  rw [scalLoop_runCh 16 (78074008874160198520644763525212887401909906723592317393988542598630163514209) 78074008874160198520644763525212887401909906723592317393988542598630163514193 ((83611758343266467712438158213251624839283837284463888705796077990149381123587 : Int), (18101124850041158815009009485735144088925930424123803647507665853537289369319 : Int)) ((21307953861493440847965408840558691329255437114780327568776445059070282401291 : Int), (60904972672523478438122375686842523546887675144749404612626847754391649369783 : Int)) (15036507156909990961177966877893055748548736 : Int) ((64865771952738249789114440545196421582918768733599534045195125031385885360346 : Int), (46211216742671250426576585530459394900178019437443360579906162037052661563266 : Int)) ((14805084040745023479799040859350927598669878150352726880675359361794483573348 : Int), (47662618432127361832831118269549520183840294553507060052135986630893934014238 : Int)) (229438890944061141375396223112381832100 : Int) (by decide) chk3_7 (by decide) (by decide) (by decide)]
  rw [scalLoop_runCh 16 (78074008874160198520644763525212887401909906723592317393988542598630163514193) 78074008874160198520644763525212887401909906723592317393988542598630163514177 ((64865771952738249789114440545196421582918768733599534045195125031385885360346 : Int), (46211216742671250426576585530459394900178019437443360579906162037052661563266 : Int)) ((14805084040745023479799040859350927598669878150352726880675359361794483573348 : Int), (47662618432127361832831118269549520183840294553507060052135986630893934014238 : Int)) (229438890944061141375396223112381832100 : Int) ((82443941766934163206572457262087615792206098199618204196957878539943664124143 : Int), (2933900802655320228371872386727285565009607891164205160519475145640485435973 : Int)) ((28239380474696321126322990031353831704363867870076937255382699081493774095746 : Int), (84965874024085166943128034587819763766770457183832611410661557804582899442921 : Int)) (3500959639649370443350162095831021 : Int) (by decide) chk3_8 (by decide) (by decide) (by decide)]
  rw [scalLoop_runCh 16 (78074008874160198520644763525212887401909906723592317393988542598630163514177) 78074008874160198520644763525212887401909906723592317393988542598630163514161 ((82443941766934163206572457262087615792206098199618204196957878539943664124143 : Int), (2933900802655320228371872386727285565009607891164205160519475145640485435973 : Int)) ((28239380474696321126322990031353831704363867870076937255382699081493774095746 : Int), (84965874024085166943128034587819763766770457183832611410661557804582899442921 : Int)) (3500959639649370443350162095831021 : Int) ((70661691742434068036519986667419907196041281127668848645928138120846244813005 : Int), (100286785047006832236729389681182172543048508833941702006321829459516874054045 : Int)) ((114301443445051186478774102895527423258961919316031024326063103953187986057586 : Int), (37462651749908792877450048728751471234175798056504674675389037321393755296704 : Int)) (53420404657735755056002229245 : Int) (by decide) chk3_9 (by decide) (by decide) (by decide)]
  rw [scalLoop_runCh 16 (78074008874160198520644763525212887401909906723592317393988542598630163514161) 78074008874160198520644763525212887401909906723592317393988542598630163514145 ((70661691742434068036519986667419907196041281127668848645928138120846244813005 : Int), (100286785047006832236729389681182172543048508833941702006321829459516874054045 : Int)) ((114301443445051186478774102895527423258961919316031024326063103953187986057586 : Int), (37462651749908792877450048728751471234175798056504674675389037321393755296704 : Int)) (53420404657735755056002229245 : Int) ((4142520438525914541011842624208056062406705649998025173845082041682105009068 : Int), (87900869236804138087371702825961176259461360124819616238035200569139627100447 : Int)) ((31808869194103056066775545430983694266518881036890690433235233525073187295475 : Int), (8002186334821882510424118023241070619003333902275454110506395882015718441962 : Int)) (815130686305782395263705 : Int) (by decide) chk3_10 (by decide) (by decide) (by decide)]
  rw [scalLoop_runCh 16 (78074008874160198520644763525212887401909906723592317393988542598630163514145) 78074008874160198520644763525212887401909906723592317393988542598630163514129 ((4142520438525914541011842624208056062406705649998025173845082041682105009068 : Int), (87900869236804138087371702825961176259461360124819616238035200569139627100447 : Int)) ((31808869194103056066775545430983694266518881036890690433235233525073187295475 : Int), (8002186334821882510424118023241070619003333902275454110506395882015718441962 : Int)) (815130686305782395263705 : Int) ((106135013536326263233204638779771538367307463662639765758785315935371743257267 : Int), (86028625094535483850261571256264386723357163272666519397289099603747119225149 : Int)) ((113473962346931387995712511484388781748580269936905779566632737003152765339566 : Int), (114636850668596247892293620761622565879575272820911903056648159806644661417466 : Int)) (12437907200710790943 : Int) (by decide) chk3_11 (by decide) (by decide) (by decide)]
  rw [scalLoop_runCh 16 (78074008874160198520644763525212887401909906723592317393988542598630163514129) 78074008874160198520644763525212887401909906723592317393988542598630163514113 ((106135013536326263233204638779771538367307463662639765758785315935371743257267 : Int), (86028625094535483850261571256264386723357163272666519397289099603747119225149 : Int)) ((113473962346931387995712511484388781748580269936905779566632737003152765339566 : Int), (114636850668596247892293620761622565879575272820911903056648159806644661417466 : Int)) (12437907200710790943 : Int) ((113220891681512744492539364929916345410061947313878915456447722256969001660153 : Int), (48632069096637554924274413793295750001160491151445521927536133070043743201297 : Int)) ((58057150458434604480852547821533331107163769368974665226830848211038987960030 : Int), (106025393659094457526086966678766860874770967942083885830967603631105228589684 : Int)) (189787402354595 : Int) (by decide) chk3_12 (by decide) (by decide) (by decide)]
  rw [scalLoop_runCh 16 (78074008874160198520644763525212887401909906723592317393988542598630163514113) 78074008874160198520644763525212887401909906723592317393988542598630163514097 ((113220891681512744492539364929916345410061947313878915456447722256969001660153 : Int), (48632069096637554924274413793295750001160491151445521927536133070043743201297 : Int)) ((58057150458434604480852547821533331107163769368974665226830848211038987960030 : Int), (106025393659094457526086966678766860874770967942083885830967603631105228589684 : Int)) (189787402354595 : Int) ((67655380319953589260148826173219524241109847135242745518793369102772071675834 : Int), (21029601506232444319368385136955684033497833311867654114423309422350207087357 : Int)) ((2894578971586051263822789592587085708329514165321182286536125691110742806198 : Int), (38669073686185320127396207254658888146051262097136046036468370844061573684274 : Int)) (2895925939 : Int) (by decide) chk3_13 (by decide) (by decide) (by decide)]
  rw [scalLoop_runCh 16 (78074008874160198520644763525212887401909906723592317393988542598630163514097) 78074008874160198520644763525212887401909906723592317393988542598630163514081 ((67655380319953589260148826173219524241109847135242745518793369102772071675834 : Int), (21029601506232444319368385136955684033497833311867654114423309422350207087357 : Int)) ((2894578971586051263822789592587085708329514165321182286536125691110742806198 : Int), (38669073686185320127396207254658888146051262097136046036468370844061573684274 : Int)) (2895925939 : Int) ((8718136510001795340016406650816398436241492966773881626425334457414292825707 : Int), (47828698862917730813607230394980222348159325738755616817276492989172802309159 : Int)) ((86310828670271682716167014396171542454394520359671807822496397410300236480211 : Int), (84188175533582781272794016825264291094092792516631675340814365234446738857035 : Int)) (44188 : Int) (by decide) chk3_14 (by decide) (by decide) (by decide)]
  rw [scalLoop_runCh 16 (78074008874160198520644763525212887401909906723592317393988542598630163514081) 78074008874160198520644763525212887401909906723592317393988542598630163514065 ((8718136510001795340016406650816398436241492966773881626425334457414292825707 : Int), (47828698862917730813607230394980222348159325738755616817276492989172802309159 : Int)) ((86310828670271682716167014396171542454394520359671807822496397410300236480211 : Int), (84188175533582781272794016825264291094092792516631675340814365234446738857035 : Int)) (44188 : Int) ((100056811408208733275829432225571761443897154861420255832015183193056831248263 : Int), (55225563209553524050574769423916742683973132338171759239001668957831436739955 : Int)) ((66837770201594535779099350687042404727408598709762866365333192677982385899440 : Int), (100652675408719987021357910538015346127426077519185866739835120963490438734674 : Int)) (0 : Int) (by decide) chk3_15 (by decide) (by decide) (by decide)]
  decide!

theorem chu1_0 : runCh 16 (G, ((0 : Int), (0 : Int)), (26024669624720066173548254508404295800636635574530772464662847532876721171440 : Int)) = (((24533671068980092868630552346995129420983823672304585196401986911541584152128 : Int), (2209357222459695347071765155987393997305194371900031813817445740077485301225 : Int)), ((54350724649195213059411524911474893942084341737661227418150484991284613516891 : Int), (97114940111790963609574451065597818325588322309262302340432874700837888915088 : Int)), (397104944224854525353214332708805783090768975441448554453473625684764422 : Int)) := by decide!
theorem chu1_1 : runCh 16 (((24533671068980092868630552346995129420983823672304585196401986911541584152128 : Int), (2209357222459695347071765155987393997305194371900031813817445740077485301225 : Int)), ((54350724649195213059411524911474893942084341737661227418150484991284613516891 : Int), (97114940111790963609574451065597818325588322309262302340432874700837888915088 : Int)), (397104944224854525353214332708805783090768975441448554453473625684764422 : Int)) = (((7263983490427117408129518121638485560698559702481803384958991237905117384112 : Int), (93109094002033366773627505914545361927166820241279828474630961892312310241801 : Int)), ((39405503959939154584940275098132729451633499505669924220105510463155920575180 : Int), (39478237705380860816686494596409823871608677460530662414711318048052438311704 : Int)), (6059340579602882772113255809155361680462173087180306311851099024730 : Int)) := by decide!
theorem chu1_2 : runCh 16 (((7263983490427117408129518121638485560698559702481803384958991237905117384112 : Int), (93109094002033366773627505914545361927166820241279828474630961892312310241801 : Int)), ((39405503959939154584940275098132729451633499505669924220105510463155920575180 : Int), (39478237705380860816686494596409823871608677460530662414711318048052438311704 : Int)), (6059340579602882772113255809155361680462173087180306311851099024730 : Int)) = (((37796942232071066358676457518924870482193007026528914004372298991835746383808 : Int), (41500641220791808004786750540350768710904110215016898096683828744807363604936 : Int)), ((59338814252188095468699375122763388859998113541806032008758302546146182830416 : Int), (1068210320950685586441459728489672332147343451894251299430419275929113570418 : Int)), (92458199762006878236591427752004420173067826647648716916673263 : Int)) := by decide!
theorem chu1_3 : runCh 16 (((37796942232071066358676457518924870482193007026528914004372298991835746383808 : Int), (41500641220791808004786750540350768710904110215016898096683828744807363604936 : Int)), ((59338814252188095468699375122763388859998113541806032008758302546146182830416 : Int), (1068210320950685586441459728489672332147343451894251299430419275929113570418 : Int)), (92458199762006878236591427752004420173067826647648716916673263 : Int)) = (((23129491278950567785970148376500648032717531886785241126168611397589814798013 : Int), (39307099057880941662675806615359097347682728603444928455093651353540932186784 : Int)), ((73655114570978258786363180315820048459423812363102557439736003281827510131067 : Int), (27614224322946910488102679693104210876620339664261541883169135403058066237810 : Int)), (1410800167266950656686270565063544008988461710321788283030 : Int)) := by decide!
theorem chu1_4 : runCh 16 (((23129491278950567785970148376500648032717531886785241126168611397589814798013 : Int), (39307099057880941662675806615359097347682728603444928455093651353540932186784 : Int)), ((73655114570978258786363180315820048459423812363102557439736003281827510131067 : Int), (27614224322946910488102679693104210876620339664261541883169135403058066237810 : Int)), (1410800167266950656686270565063544008988461710321788283030 : Int)) = (((103585811642593135420456399622448891166663363501464111582343873522977792850477 : Int), (31409815155472435338582344935230131320197144774427706287861757740924066421722 : Int)), ((102931489858365670975392305844653603256422457253605477307131206978377832004175 : Int), (11093844071940582096447912636919187741683303298111891559819331471070762959920 : Int)), (21527102161666117197971657792107299941840541234158146 : Int)) := by decide!
theorem chu1_5 : runCh 16 (((103585811642593135420456399622448891166663363501464111582343873522977792850477 : Int), (31409815155472435338582344935230131320197144774427706287861757740924066421722 : Int)), ((102931489858365670975392305844653603256422457253605477307131206978377832004175 : Int), (11093844071940582096447912636919187741683303298111891559819331471070762959920 : Int)), (21527102161666117197971657792107299941840541234158146 : Int)) = (((115183067000797961901920784023024616254245272923307973061240480176353201301430 : Int), (49763971281659542105744668679966078286699279184665337082856648066049033156975 : Int)), ((107511770410980274969780235995914927104161876535435623779140893991253938587504 : Int), (100678475891185759770806424728022800661105089668560853433633874664274533968997 : Int)), (328477511011751055877253079103199767178963336702 : Int)) := by decide!
theorem chu1_6 : runCh 16 (((115183067000797961901920784023024616254245272923307973061240480176353201301430 : Int), (49763971281659542105744668679966078286699279184665337082856648066049033156975 : Int)), ((107511770410980274969780235995914927104161876535435623779140893991253938587504 : Int), (100678475891185759770806424728022800661105089668560853433633874664274533968997 : Int)), (328477511011751055877253079103199767178963336702 : Int)) = (((83611758343266467712438158213251624839283837284463888705796077990149381123587 : Int), (18101124850041158815009009485735144088925930424123803647507665853537289369319 : Int)), ((25475821110269761435753766548747175953672376861565012492724441569017341848905 : Int), (46940710488235251494048061601882894271001698067844654356717305365618555943561 : Int)), (5012169052303330320392655625964351916182912 : Int)) := by decide!
theorem chu1_7 : runCh 16 (((83611758343266467712438158213251624839283837284463888705796077990149381123587 : Int), (18101124850041158815009009485735144088925930424123803647507665853537289369319 : Int)), ((25475821110269761435753766548747175953672376861565012492724441569017341848905 : Int), (46940710488235251494048061601882894271001698067844654356717305365618555943561 : Int)), (5012169052303330320392655625964351916182912 : Int)) = (((64865771952738249789114440545196421582918768733599534045195125031385885360346 : Int), (46211216742671250426576585530459394900178019437443360579906162037052661563266 : Int)), ((24561106201363135265197999794982842592899203563545752330432533800084020720263 : Int), (24267518396022140763173826059834637622394232788994616081361929562221792122536 : Int)), (76479630314687047125132074370793944033 : Int)) := by decide!
theorem chu1_8 : runCh 16 (((64865771952738249789114440545196421582918768733599534045195125031385885360346 : Int), (46211216742671250426576585530459394900178019437443360579906162037052661563266 : Int)), ((24561106201363135265197999794982842592899203563545752330432533800084020720263 : Int), (24267518396022140763173826059834637622394232788994616081361929562221792122536 : Int)), (76479630314687047125132074370793944033 : Int)) = (((82443941766934163206572457262087615792206098199618204196957878539943664124143 : Int), (2933900802655320228371872386727285565009607891164205160519475145640485435973 : Int)), ((59088629709712228819559505938600633053754313301358566087144825190504471641702 : Int), (66970599674522063798081542571097943101046635043223240125157897197393952578803 : Int)), (1166986546549790147783387365277007 : Int)) := by decide!
theorem chu1_9 : runCh 16 (((82443941766934163206572457262087615792206098199618204196957878539943664124143 : Int), (2933900802655320228371872386727285565009607891164205160519475145640485435973 : Int)), ((59088629709712228819559505938600633053754313301358566087144825190504471641702 : Int), (66970599674522063798081542571097943101046635043223240125157897197393952578803 : Int)), (1166986546549790147783387365277007 : Int)) = (((70661691742434068036519986667419907196041281127668848645928138120846244813005 : Int), (100286785047006832236729389681182172543048508833941702006321829459516874054045 : Int)), ((90268236640319517336783119193960041784045763961770758748912491493927471091423 : Int), (46656724900655935037397486571479983163509247530728608651086683451246730527133 : Int)), (17806801552578585018667409748 : Int)) := by decide!
theorem chu1_10 : runCh 16 (((70661691742434068036519986667419907196041281127668848645928138120846244813005 : Int), (100286785047006832236729389681182172543048508833941702006321829459516874054045 : Int)), ((90268236640319517336783119193960041784045763961770758748912491493927471091423 : Int), (46656724900655935037397486571479983163509247530728608651086683451246730527133 : Int)), (17806801552578585018667409748 : Int)) = (((4142520438525914541011842624208056062406705649998025173845082041682105009068 : Int), (87900869236804138087371702825961176259461360124819616238035200569139627100447 : Int)), ((18467246623246523350350215679950370978968191913737041845097990001940212687538 : Int), (35690959398805974384282844222514681824294815119905180180960161749633545261954 : Int)), (271710228768594131754568 : Int)) := by decide!
theorem chu1_11 : runCh 16 (((4142520438525914541011842624208056062406705649998025173845082041682105009068 : Int), (87900869236804138087371702825961176259461360124819616238035200569139627100447 : Int)), ((18467246623246523350350215679950370978968191913737041845097990001940212687538 : Int), (35690959398805974384282844222514681824294815119905180180960161749633545261954 : Int)), (271710228768594131754568 : Int)) = (((106135013536326263233204638779771538367307463662639765758785315935371743257267 : Int), (86028625094535483850261571256264386723357163272666519397289099603747119225149 : Int)), ((106066320702483831111290514286887331056957819546753304901952140892770548789722 : Int), (50262674922784351214029753241112202634326515300501598288325581704475495248837 : Int)), (4145969066903596981 : Int)) := by decide!
theorem chu1_12 : runCh 16 (((106135013536326263233204638779771538367307463662639765758785315935371743257267 : Int), (86028625094535483850261571256264386723357163272666519397289099603747119225149 : Int)), ((106066320702483831111290514286887331056957819546753304901952140892770548789722 : Int), (50262674922784351214029753241112202634326515300501598288325581704475495248837 : Int)), (4145969066903596981 : Int)) = (((113220891681512744492539364929916345410061947313878915456447722256969001660153 : Int), (48632069096637554924274413793295750001160491151445521927536133070043743201297 : Int)), ((22740204116569208940743308333635604475824710665027920673085707634583117861604 : Int), (102905526261979018866046581958692713763261168075498351528836085557131240217169 : Int)), (63262467451531 : Int)) := by decide!
theorem chu1_13 : runCh 16 (((113220891681512744492539364929916345410061947313878915456447722256969001660153 : Int), (48632069096637554924274413793295750001160491151445521927536133070043743201297 : Int)), ((22740204116569208940743308333635604475824710665027920673085707634583117861604 : Int), (102905526261979018866046581958692713763261168075498351528836085557131240217169 : Int)), (63262467451531 : Int)) = (((67655380319953589260148826173219524241109847135242745518793369102772071675834 : Int), (21029601506232444319368385136955684033497833311867654114423309422350207087357 : Int)), ((35226197129362626113603519667627804396986397581625022294425535743001618471358 : Int), (90312592973106502500822714074437891732070587622385779962254234987180075585194 : Int)), (965308646 : Int)) := by decide!
theorem chu1_14 : runCh 16 (((67655380319953589260148826173219524241109847135242745518793369102772071675834 : Int), (21029601506232444319368385136955684033497833311867654114423309422350207087357 : Int)), ((35226197129362626113603519667627804396986397581625022294425535743001618471358 : Int), (90312592973106502500822714074437891732070587622385779962254234987180075585194 : Int)), (965308646 : Int)) = (((8718136510001795340016406650816398436241492966773881626425334457414292825707 : Int), (47828698862917730813607230394980222348159325738755616817276492989172802309159 : Int)), ((86282691346342339073163360371038220726841080976771528545980271505243589283341 : Int), (60034764923347742066759128329135305247239240249380382782440784353897586127171 : Int)), (14729 : Int)) := by decide!
theorem chu1_15 : runCh 14 (((8718136510001795340016406650816398436241492966773881626425334457414292825707 : Int), (47828698862917730813607230394980222348159325738755616817276492989172802309159 : Int)), ((86282691346342339073163360371038220726841080976771528545980271505243589283341 : Int), (60034764923347742066759128329135305247239240249380382782440784353897586127171 : Int)), (14729 : Int)) = (((19277281477197177963613685635111727513957886411799201238917757645493897712993 : Int), (847959926674921704613916930352312808004252888284294958523157455244708242291 : Int)), ((23620854997921501804136411791104769986833072451863613446092941013256551136065 : Int), (69590361326775910233116660118129629233513276547667610165727025212257875551740 : Int)), (0 : Int)) := by decide!

theorem scal_G_u1 : scal_mult_n G (26024669624720066173548254508404295800636635574530772464662847532876721171440 : Int) = ((23620854997921501804136411791104769986833072451863613446092941013256551136065 : Int), (69590361326775910233116660118129629233513276547667610165727025212257875551740 : Int)) := by
  rw [scal_mult_n_pos G (26024669624720066173548254508404295800636635574530772464662847532876721171440 : Int) (by decide)]
  rw [scalLoop_runCh 16 ((26024669624720066173548254508404295800636635574530772464662847532876721171440 : Int).toNat + 1) 26024669624720066173548254508404295800636635574530772464662847532876721171425 G ((0 : Int), (0 : Int)) (26024669624720066173548254508404295800636635574530772464662847532876721171440 : Int) ((24533671068980092868630552346995129420983823672304585196401986911541584152128 : Int), (2209357222459695347071765155987393997305194371900031813817445740077485301225 : Int)) ((54350724649195213059411524911474893942084341737661227418150484991284613516891 : Int), (97114940111790963609574451065597818325588322309262302340432874700837888915088 : Int)) (397104944224854525353214332708805783090768975441448554453473625684764422 : Int) (by decide) chu1_0 (by decide) (by decide) (by decide)]
  rw [scalLoop_runCh 16 (26024669624720066173548254508404295800636635574530772464662847532876721171425) 26024669624720066173548254508404295800636635574530772464662847532876721171409 ((24533671068980092868630552346995129420983823672304585196401986911541584152128 : Int), (2209357222459695347071765155987393997305194371900031813817445740077485301225 : Int)) ((54350724649195213059411524911474893942084341737661227418150484991284613516891 : Int), (97114940111790963609574451065597818325588322309262302340432874700837888915088 : Int)) (397104944224854525353214332708805783090768975441448554453473625684764422 : Int) ((7263983490427117408129518121638485560698559702481803384958991237905117384112 : Int), (93109094002033366773627505914545361927166820241279828474630961892312310241801 : Int)) ((39405503959939154584940275098132729451633499505669924220105510463155920575180 : Int), (39478237705380860816686494596409823871608677460530662414711318048052438311704 : Int)) (6059340579602882772113255809155361680462173087180306311851099024730 : Int) (by decide) chu1_1 (by decide) (by decide) (by decide)]
  rw [scalLoop_runCh 16 (26024669624720066173548254508404295800636635574530772464662847532876721171409) 26024669624720066173548254508404295800636635574530772464662847532876721171393 ((7263983490427117408129518121638485560698559702481803384958991237905117384112 : Int), (93109094002033366773627505914545361927166820241279828474630961892312310241801 : Int)) ((39405503959939154584940275098132729451633499505669924220105510463155920575180 : Int), (39478237705380860816686494596409823871608677460530662414711318048052438311704 : Int)) (6059340579602882772113255809155361680462173087180306311851099024730 : Int) ((37796942232071066358676457518924870482193007026528914004372298991835746383808 : Int), (41500641220791808004786750540350768710904110215016898096683828744807363604936 : Int)) ((59338814252188095468699375122763388859998113541806032008758302546146182830416 : Int), (1068210320950685586441459728489672332147343451894251299430419275929113570418 : Int)) (92458199762006878236591427752004420173067826647648716916673263 : Int) (by decide) chu1_2 (by decide) (by decide) (by decide)]
  rw [scalLoop_runCh 16 (26024669624720066173548254508404295800636635574530772464662847532876721171393) 26024669624720066173548254508404295800636635574530772464662847532876721171377 ((37796942232071066358676457518924870482193007026528914004372298991835746383808 : Int), (41500641220791808004786750540350768710904110215016898096683828744807363604936 : Int)) ((59338814252188095468699375122763388859998113541806032008758302546146182830416 : Int), (1068210320950685586441459728489672332147343451894251299430419275929113570418 : Int)) (92458199762006878236591427752004420173067826647648716916673263 : Int) ((23129491278950567785970148376500648032717531886785241126168611397589814798013 : Int), (39307099057880941662675806615359097347682728603444928455093651353540932186784 : Int)) ((73655114570978258786363180315820048459423812363102557439736003281827510131067 : Int), (27614224322946910488102679693104210876620339664261541883169135403058066237810 : Int)) (1410800167266950656686270565063544008988461710321788283030 : Int) (by decide) chu1_3 (by decide) (by decide) (by decide)]
  rw [scalLoop_runCh 16 (26024669624720066173548254508404295800636635574530772464662847532876721171377) 26024669624720066173548254508404295800636635574530772464662847532876721171361 ((23129491278950567785970148376500648032717531886785241126168611397589814798013 : Int), (39307099057880941662675806615359097347682728603444928455093651353540932186784 : Int)) ((73655114570978258786363180315820048459423812363102557439736003281827510131067 : Int), (27614224322946910488102679693104210876620339664261541883169135403058066237810 : Int)) (1410800167266950656686270565063544008988461710321788283030 : Int) ((103585811642593135420456399622448891166663363501464111582343873522977792850477 : Int), (31409815155472435338582344935230131320197144774427706287861757740924066421722 : Int)) ((102931489858365670975392305844653603256422457253605477307131206978377832004175 : Int), (11093844071940582096447912636919187741683303298111891559819331471070762959920 : Int)) (21527102161666117197971657792107299941840541234158146 : Int) (by decide) chu1_4 (by decide) (by decide) (by decide)]
  rw [scalLoop_runCh 16 (26024669624720066173548254508404295800636635574530772464662847532876721171361) 26024669624720066173548254508404295800636635574530772464662847532876721171345 ((103585811642593135420456399622448891166663363501464111582343873522977792850477 : Int), (31409815155472435338582344935230131320197144774427706287861757740924066421722 : Int)) ((102931489858365670975392305844653603256422457253605477307131206978377832004175 : Int), (11093844071940582096447912636919187741683303298111891559819331471070762959920 : Int)) (21527102161666117197971657792107299941840541234158146 : Int) ((115183067000797961901920784023024616254245272923307973061240480176353201301430 : Int), (49763971281659542105744668679966078286699279184665337082856648066049033156975 : Int)) ((107511770410980274969780235995914927104161876535435623779140893991253938587504 : Int), (100678475891185759770806424728022800661105089668560853433633874664274533968997 : Int)) (328477511011751055877253079103199767178963336702 : Int) (by decide) chu1_5 (by decide) (by decide) (by decide)]
  rw [scalLoop_runCh 16 (26024669624720066173548254508404295800636635574530772464662847532876721171345) 26024669624720066173548254508404295800636635574530772464662847532876721171329 ((115183067000797961901920784023024616254245272923307973061240480176353201301430 : Int), (49763971281659542105744668679966078286699279184665337082856648066049033156975 : Int)) ((107511770410980274969780235995914927104161876535435623779140893991253938587504 : Int), (100678475891185759770806424728022800661105089668560853433633874664274533968997 : Int)) (328477511011751055877253079103199767178963336702 : Int) ((83611758343266467712438158213251624839283837284463888705796077990149381123587 : Int), (18101124850041158815009009485735144088925930424123803647507665853537289369319 : Int)) ((25475821110269761435753766548747175953672376861565012492724441569017341848905 : Int), (46940710488235251494048061601882894271001698067844654356717305365618555943561 : Int)) (5012169052303330320392655625964351916182912 : Int) (by decide) chu1_6 (by decide) (by decide) (by decide)]
  rw [scalLoop_runCh 16 (26024669624720066173548254508404295800636635574530772464662847532876721171329) 26024669624720066173548254508404295800636635574530772464662847532876721171313 ((83611758343266467712438158213251624839283837284463888705796077990149381123587 : Int), (18101124850041158815009009485735144088925930424123803647507665853537289369319 : Int)) ((25475821110269761435753766548747175953672376861565012492724441569017341848905 : Int), (46940710488235251494048061601882894271001698067844654356717305365618555943561 : Int)) (5012169052303330320392655625964351916182912 : Int) ((64865771952738249789114440545196421582918768733599534045195125031385885360346 : Int), (46211216742671250426576585530459394900178019437443360579906162037052661563266 : Int)) ((24561106201363135265197999794982842592899203563545752330432533800084020720263 : Int), (24267518396022140763173826059834637622394232788994616081361929562221792122536 : Int)) (76479630314687047125132074370793944033 : Int) (by decide) chu1_7 (by decide) (by decide) (by decide)]
  rw [scalLoop_runCh 16 (26024669624720066173548254508404295800636635574530772464662847532876721171313) 26024669624720066173548254508404295800636635574530772464662847532876721171297 ((64865771952738249789114440545196421582918768733599534045195125031385885360346 : Int), (46211216742671250426576585530459394900178019437443360579906162037052661563266 : Int)) ((24561106201363135265197999794982842592899203563545752330432533800084020720263 : Int), (24267518396022140763173826059834637622394232788994616081361929562221792122536 : Int)) (76479630314687047125132074370793944033 : Int) ((82443941766934163206572457262087615792206098199618204196957878539943664124143 : Int), (2933900802655320228371872386727285565009607891164205160519475145640485435973 : Int)) ((59088629709712228819559505938600633053754313301358566087144825190504471641702 : Int), (66970599674522063798081542571097943101046635043223240125157897197393952578803 : Int)) (1166986546549790147783387365277007 : Int) (by decide) chu1_8 (by decide) (by decide) (by decide)]
  rw [scalLoop_runCh 16 (26024669624720066173548254508404295800636635574530772464662847532876721171297) 26024669624720066173548254508404295800636635574530772464662847532876721171281 ((82443941766934163206572457262087615792206098199618204196957878539943664124143 : Int), (2933900802655320228371872386727285565009607891164205160519475145640485435973 : Int)) ((59088629709712228819559505938600633053754313301358566087144825190504471641702 : Int), (66970599674522063798081542571097943101046635043223240125157897197393952578803 : Int)) (1166986546549790147783387365277007 : Int) ((70661691742434068036519986667419907196041281127668848645928138120846244813005 : Int), (100286785047006832236729389681182172543048508833941702006321829459516874054045 : Int)) ((90268236640319517336783119193960041784045763961770758748912491493927471091423 : Int), (46656724900655935037397486571479983163509247530728608651086683451246730527133 : Int)) (17806801552578585018667409748 : Int) (by decide) chu1_9 (by decide) (by decide) (by decide)]
  rw [scalLoop_runCh 16 (26024669624720066173548254508404295800636635574530772464662847532876721171281) 26024669624720066173548254508404295800636635574530772464662847532876721171265 ((70661691742434068036519986667419907196041281127668848645928138120846244813005 : Int), (100286785047006832236729389681182172543048508833941702006321829459516874054045 : Int)) ((90268236640319517336783119193960041784045763961770758748912491493927471091423 : Int), (46656724900655935037397486571479983163509247530728608651086683451246730527133 : Int)) (17806801552578585018667409748 : Int) ((4142520438525914541011842624208056062406705649998025173845082041682105009068 : Int), (87900869236804138087371702825961176259461360124819616238035200569139627100447 : Int)) ((18467246623246523350350215679950370978968191913737041845097990001940212687538 : Int), (35690959398805974384282844222514681824294815119905180180960161749633545261954 : Int)) (271710228768594131754568 : Int) (by decide) chu1_10 (by decide) (by decide) (by decide)]
  rw [scalLoop_runCh 16 (26024669624720066173548254508404295800636635574530772464662847532876721171265) 26024669624720066173548254508404295800636635574530772464662847532876721171249 ((4142520438525914541011842624208056062406705649998025173845082041682105009068 : Int), (87900869236804138087371702825961176259461360124819616238035200569139627100447 : Int)) ((18467246623246523350350215679950370978968191913737041845097990001940212687538 : Int), (35690959398805974384282844222514681824294815119905180180960161749633545261954 : Int)) (271710228768594131754568 : Int) ((106135013536326263233204638779771538367307463662639765758785315935371743257267 : Int), (86028625094535483850261571256264386723357163272666519397289099603747119225149 : Int)) ((106066320702483831111290514286887331056957819546753304901952140892770548789722 : Int), (50262674922784351214029753241112202634326515300501598288325581704475495248837 : Int)) (4145969066903596981 : Int) (by decide) chu1_11 (by decide) (by decide) (by decide)]
  rw [scalLoop_runCh 16 (26024669624720066173548254508404295800636635574530772464662847532876721171249) 26024669624720066173548254508404295800636635574530772464662847532876721171233 ((106135013536326263233204638779771538367307463662639765758785315935371743257267 : Int), (86028625094535483850261571256264386723357163272666519397289099603747119225149 : Int)) ((106066320702483831111290514286887331056957819546753304901952140892770548789722 : Int), (50262674922784351214029753241112202634326515300501598288325581704475495248837 : Int)) (4145969066903596981 : Int) ((113220891681512744492539364929916345410061947313878915456447722256969001660153 : Int), (48632069096637554924274413793295750001160491151445521927536133070043743201297 : Int)) ((22740204116569208940743308333635604475824710665027920673085707634583117861604 : Int), (102905526261979018866046581958692713763261168075498351528836085557131240217169 : Int)) (63262467451531 : Int) (by decide) chu1_12 (by decide) (by decide) (by decide)]
  rw [scalLoop_runCh 16 (26024669624720066173548254508404295800636635574530772464662847532876721171233) 26024669624720066173548254508404295800636635574530772464662847532876721171217 ((113220891681512744492539364929916345410061947313878915456447722256969001660153 : Int), (48632069096637554924274413793295750001160491151445521927536133070043743201297 : Int)) ((22740204116569208940743308333635604475824710665027920673085707634583117861604 : Int), (102905526261979018866046581958692713763261168075498351528836085557131240217169 : Int)) (63262467451531 : Int) ((67655380319953589260148826173219524241109847135242745518793369102772071675834 : Int), (21029601506232444319368385136955684033497833311867654114423309422350207087357 : Int)) ((35226197129362626113603519667627804396986397581625022294425535743001618471358 : Int), (90312592973106502500822714074437891732070587622385779962254234987180075585194 : Int)) (965308646 : Int) (by decide) chu1_13 (by decide) (by decide) (by decide)]
  rw [scalLoop_runCh 16 (26024669624720066173548254508404295800636635574530772464662847532876721171217) 26024669624720066173548254508404295800636635574530772464662847532876721171201 ((67655380319953589260148826173219524241109847135242745518793369102772071675834 : Int), (21029601506232444319368385136955684033497833311867654114423309422350207087357 : Int)) ((35226197129362626113603519667627804396986397581625022294425535743001618471358 : Int), (90312592973106502500822714074437891732070587622385779962254234987180075585194 : Int)) (965308646 : Int) ((8718136510001795340016406650816398436241492966773881626425334457414292825707 : Int), (47828698862917730813607230394980222348159325738755616817276492989172802309159 : Int)) ((86282691346342339073163360371038220726841080976771528545980271505243589283341 : Int), (60034764923347742066759128329135305247239240249380382782440784353897586127171 : Int)) (14729 : Int) (by decide) chu1_14 (by decide) (by decide) (by decide)]
  rw [scalLoop_runCh 14 (26024669624720066173548254508404295800636635574530772464662847532876721171201) 26024669624720066173548254508404295800636635574530772464662847532876721171187 ((8718136510001795340016406650816398436241492966773881626425334457414292825707 : Int), (47828698862917730813607230394980222348159325738755616817276492989172802309159 : Int)) ((86282691346342339073163360371038220726841080976771528545980271505243589283341 : Int), (60034764923347742066759128329135305247239240249380382782440784353897586127171 : Int)) (14729 : Int) ((19277281477197177963613685635111727513957886411799201238917757645493897712993 : Int), (847959926674921704613916930352312808004252888284294958523157455244708242291 : Int)) ((23620854997921501804136411791104769986833072451863613446092941013256551136065 : Int), (69590361326775910233116660118129629233513276547667610165727025212257875551740 : Int)) (0 : Int) (by decide) chu1_15 (by decide) (by decide) (by decide)]
  decide!

theorem chu2_0 : runCh 16 (G, ((0 : Int), (0 : Int)), (89767419612596129250022730500283612052200928704544131917942315608641440322898 : Int)) = (((24533671068980092868630552346995129420983823672304585196401986911541584152128 : Int), (2209357222459695347071765155987393997305194371900031813817445740077485301225 : Int)), ((1990965098527967204955144579158363375065000214901419808962534136107615052339 : Int), (94349233360185622143694284401197335102914172470380850628191989726476920393058 : Int)), (1369742120553529804230083168034112732730116709969240294158055352915061040 : Int)) := by decide!
theorem chu2_1 : runCh 16 (((24533671068980092868630552346995129420983823672304585196401986911541584152128 : Int), (2209357222459695347071765155987393997305194371900031813817445740077485301225 : Int)), ((1990965098527967204955144579158363375065000214901419808962534136107615052339 : Int), (94349233360185622143694284401197335102914172470380850628191989726476920393058 : Int)), (1369742120553529804230083168034112732730116709969240294158055352915061040 : Int)) = (((7263983490427117408129518121638485560698559702481803384958991237905117384112 : Int), (93109094002033366773627505914545361927166820241279828474630961892312310241801 : Int)), ((39720101907998816516087309369470329891552855969326551109265795298521968672605 : Int), (43654384927254503734211037954166407476194666238452908035427680253851918085004 : Int)), (20900606087547757022553759277864268993074290618427128511933217665329 : Int)) := by decide!
theorem chu2_2 : runCh 16 (((7263983490427117408129518121638485560698559702481803384958991237905117384112 : Int), (93109094002033366773627505914545361927166820241279828474630961892312310241801 : Int)), ((39720101907998816516087309369470329891552855969326551109265795298521968672605 : Int), (43654384927254503734211037954166407476194666238452908035427680253851918085004 : Int)), (20900606087547757022553759277864268993074290618427128511933217665329 : Int)) = (((37796942232071066358676457518924870482193007026528914004372298991835746383808 : Int), (41500641220791808004786750540350768710904110215016898096683828744807363604936 : Int)), ((71654609868178088008542594628913702590099485276897410922518529786147177671428 : Int), (73564052269051223681473206739336188538471762465509555872355031698966285063751 : Int)), (318917939568294632302150867887333206071079873938402229491168482 : Int)) := by decide!
theorem chu2_3 : runCh 16 (((37796942232071066358676457518924870482193007026528914004372298991835746383808 : Int), (41500641220791808004786750540350768710904110215016898096683828744807363604936 : Int)), ((71654609868178088008542594628913702590099485276897410922518529786147177671428 : Int), (73564052269051223681473206739336188538471762465509555872355031698966285063751 : Int)), (318917939568294632302150867887333206071079873938402229491168482 : Int)) = (((23129491278950567785970148376500648032717531886785241126168611397589814798013 : Int), (39307099057880941662675806615359097347682728603444928455093651353540932186784 : Int)), ((24588699454512640235942361693063999030015892896515514040700904525936220273214 : Int), (51001456506214323844279797997575037977784119788853865963265591774989673194891 : Int)), (4866301568119730107149518858144122407090452178015170738085 : Int)) := by decide!
theorem chu2_4 : runCh 16 (((23129491278950567785970148376500648032717531886785241126168611397589814798013 : Int), (39307099057880941662675806615359097347682728603444928455093651353540932186784 : Int)), ((24588699454512640235942361693063999030015892896515514040700904525936220273214 : Int), (51001456506214323844279797997575037977784119788853865963265591774989673194891 : Int)), (4866301568119730107149518858144122407090452178015170738085 : Int)) = (((103585811642593135420456399622448891166663363501464111582343873522977792850477 : Int), (31409815155472435338582344935230131320197144774427706287861757740924066421722 : Int)), ((67479157346225636932112500940824954281659125454674894890373251886740402772155 : Int), (46674426014796561107656277071500754471607129408839834944475561806345636435154 : Int)), (74253869142451936449425031404787024033972964142077190 : Int)) := by decide!
theorem chu2_5 : runCh 16 (((103585811642593135420456399622448891166663363501464111582343873522977792850477 : Int), (31409815155472435338582344935230131320197144774427706287861757740924066421722 : Int)), ((67479157346225636932112500940824954281659125454674894890373251886740402772155 : Int), (46674426014796561107656277071500754471607129408839834944475561806345636435154 : Int)), (74253869142451936449425031404787024033972964142077190 : Int)) = (((115183067000797961901920784023024616254245272923307973061240480176353201301430 : Int), (49763971281659542105744668679966078286699279184665337082856648066049033156975 : Int)), ((81511359263811023693705035289448693649730363577501908879880560636142182442639 : Int), (99390213741885341481777857741685466084402620634865567561424041204053841380839 : Int)), (1133024126319151862326431753613083252471511293671 : Int)) := by decide!
theorem chu2_6 : runCh 16 (((115183067000797961901920784023024616254245272923307973061240480176353201301430 : Int), (49763971281659542105744668679966078286699279184665337082856648066049033156975 : Int)), ((81511359263811023693705035289448693649730363577501908879880560636142182442639 : Int), (99390213741885341481777857741685466084402620634865567561424041204053841380839 : Int)), (1133024126319151862326431753613083252471511293671 : Int)) = (((83611758343266467712438158213251624839283837284463888705796077990149381123587 : Int), (18101124850041158815009009485735144088925930424123803647507665853537289369319 : Int)), ((34823435532659079100556702702863129934888316420584896575470232995439851803146 : Int), (79272314701484411568702638937801239492332550415069260913544687559263551612592 : Int)), (17288576146227292821143062646684009589714222 : Int)) := by decide!
theorem chu2_7 : runCh 16 (((83611758343266467712438158213251624839283837284463888705796077990149381123587 : Int), (18101124850041158815009009485735144088925930424123803647507665853537289369319 : Int)), ((34823435532659079100556702702863129934888316420584896575470232995439851803146 : Int), (79272314701484411568702638937801239492332550415069260913544687559263551612592 : Int)), (17288576146227292821143062646684009589714222 : Int)) = (((64865771952738249789114440545196421582918768733599534045195125031385885360346 : Int), (46211216742671250426576585530459394900178019437443360579906162037052661563266 : Int)), ((31357081177221998604976078468364988723705165274327918772247120414156919536608 : Int), (61409167381574613986268717469326879248320656471624486477960032703234917603649 : Int)), (263802736606251416338242533060974267421 : Int)) := by decide!
theorem chu2_8 : runCh 16 (((64865771952738249789114440545196421582918768733599534045195125031385885360346 : Int), (46211216742671250426576585530459394900178019437443360579906162037052661563266 : Int)), ((31357081177221998604976078468364988723705165274327918772247120414156919536608 : Int), (61409167381574613986268717469326879248320656471624486477960032703234917603649 : Int)), (263802736606251416338242533060974267421 : Int)) = (((82443941766934163206572457262087615792206098199618204196957878539943664124143 : Int), (2933900802655320228371872386727285565009607891164205160519475145640485435973 : Int)), ((71983067579283407502801927944826104191448900854766936572363962065687947811285 : Int), (5392452875669857441952916283134058204039910306164506529252111973772225294800 : Int)), (4025310311985037480747108963943088 : Int)) := by decide!
theorem chu2_9 : runCh 16 (((82443941766934163206572457262087615792206098199618204196957878539943664124143 : Int), (2933900802655320228371872386727285565009607891164205160519475145640485435973 : Int)), ((71983067579283407502801927944826104191448900854766936572363962065687947811285 : Int), (5392452875669857441952916283134058204039910306164506529252111973772225294800 : Int)), (4025310311985037480747108963943088 : Int)) = (((70661691742434068036519986667419907196041281127668848645928138120846244813005 : Int), (100286785047006832236729389681182172543048508833941702006321829459516874054045 : Int)), ((47600225550308361665894927723022209272028396181331218034625321932745148115611 : Int), (10985518785101773119420331905187568986254830978248020097359170326444143495167 : Int)), (61421360961685752574876540587 : Int)) := by decide!
theorem chu2_10 : runCh 16 (((70661691742434068036519986667419907196041281127668848645928138120846244813005 : Int), (100286785047006832236729389681182172543048508833941702006321829459516874054045 : Int)), ((47600225550308361665894927723022209272028396181331218034625321932745148115611 : Int), (10985518785101773119420331905187568986254830978248020097359170326444143495167 : Int)), (61421360961685752574876540587 : Int)) = (((4142520438525914541011842624208056062406705649998025173845082041682105009068 : Int), (87900869236804138087371702825961176259461360124819616238035200569139627100447 : Int)), ((79918964078373648164939926941535381272395463478404026362644696641985627319230 : Int), (8214558688203155497008641685775860993240689012458230033162844288569252192877 : Int)), (937215590846035042951607 : Int)) := by decide!
theorem chu2_11 : runCh 16 (((4142520438525914541011842624208056062406705649998025173845082041682105009068 : Int), (87900869236804138087371702825961176259461360124819616238035200569139627100447 : Int)), ((79918964078373648164939926941535381272395463478404026362644696641985627319230 : Int), (8214558688203155497008641685775860993240689012458230033162844288569252192877 : Int)), (937215590846035042951607 : Int)) = (((106135013536326263233204638779771538367307463662639765758785315935371743257267 : Int), (86028625094535483850261571256264386723357163272666519397289099603747119225149 : Int)), ((51656118264129387293569746294928965559363856685797127957887521768870505505183 : Int), (37111154852005997678060272915228976505132899680244762918873082853188708121644 : Int)), (14300775006805954634 : Int)) := by decide!
theorem chu2_12 : runCh 16 (((106135013536326263233204638779771538367307463662639765758785315935371743257267 : Int), (86028625094535483850261571256264386723357163272666519397289099603747119225149 : Int)), ((51656118264129387293569746294928965559363856685797127957887521768870505505183 : Int), (37111154852005997678060272915228976505132899680244762918873082853188708121644 : Int)), (14300775006805954634 : Int)) = (((113220891681512744492539364929916345410061947313878915456447722256969001660153 : Int), (48632069096637554924274413793295750001160491151445521927536133070043743201297 : Int)), ((530495559085316090937301642492780044420403133758152026852168097286087896822 : Int), (76924272130573653234479769194559909135346878844553071303212657941929447630319 : Int)), (218212509259124 : Int)) := by decide!
theorem chu2_13 : runCh 16 (((113220891681512744492539364929916345410061947313878915456447722256969001660153 : Int), (48632069096637554924274413793295750001160491151445521927536133070043743201297 : Int)), ((530495559085316090937301642492780044420403133758152026852168097286087896822 : Int), (76924272130573653234479769194559909135346878844553071303212657941929447630319 : Int)), (218212509259124 : Int)) = (((67655380319953589260148826173219524241109847135242745518793369102772071675834 : Int), (21029601506232444319368385136955684033497833311867654114423309422350207087357 : Int)), ((32346015842467323255901512794901450590503227636057535352193916840131405061509 : Int), (811613326090879287580025940631024753427432572263626844913445934650072880533 : Int)), (3329658649 : Int)) := by decide!
theorem chu2_14 : runCh 16 (((67655380319953589260148826173219524241109847135242745518793369102772071675834 : Int), (21029601506232444319368385136955684033497833311867654114423309422350207087357 : Int)), ((32346015842467323255901512794901450590503227636057535352193916840131405061509 : Int), (811613326090879287580025940631024753427432572263626844913445934650072880533 : Int)), (3329658649 : Int)) = (((8718136510001795340016406650816398436241492966773881626425334457414292825707 : Int), (47828698862917730813607230394980222348159325738755616817276492989172802309159 : Int)), ((36253442498561866605139046134940567485598087922831080608209335612392683498102 : Int), (3248433222600381175689524459118588999246557901218854354942657801483276559391 : Int)), (50806 : Int)) := by decide!
theorem chu2_15 : runCh 16 (((8718136510001795340016406650816398436241492966773881626425334457414292825707 : Int), (47828698862917730813607230394980222348159325738755616817276492989172802309159 : Int)), ((36253442498561866605139046134940567485598087922831080608209335612392683498102 : Int), (3248433222600381175689524459118588999246557901218854354942657801483276559391 : Int)), (50806 : Int)) = (((100056811408208733275829432225571761443897154861420255832015183193056831248263 : Int), (55225563209553524050574769423916742683973132338171759239001668957831436739955 : Int)), ((90888779158563823146755473862282102363969308959424961308149641532476281635987 : Int), (46201727910540285190454324890558278619756708117972953873730558795650959119923 : Int)), (0 : Int)) := by decide!

theorem scal_G_u2 : scal_mult_n G (89767419612596129250022730500283612052200928704544131917942315608641440322898 : Int) = ((90888779158563823146755473862282102363969308959424961308149641532476281635987 : Int), (46201727910540285190454324890558278619756708117972953873730558795650959119923 : Int)) := by
  rw [scal_mult_n_pos G (89767419612596129250022730500283612052200928704544131917942315608641440322898 : Int) (by decide)]
  rw [scalLoop_runCh 16 ((89767419612596129250022730500283612052200928704544131917942315608641440322898 : Int).toNat + 1) 89767419612596129250022730500283612052200928704544131917942315608641440322883 G ((0 : Int), (0 : Int)) (89767419612596129250022730500283612052200928704544131917942315608641440322898 : Int) ((24533671068980092868630552346995129420983823672304585196401986911541584152128 : Int), (2209357222459695347071765155987393997305194371900031813817445740077485301225 : Int)) ((1990965098527967204955144579158363375065000214901419808962534136107615052339 : Int), (94349233360185622143694284401197335102914172470380850628191989726476920393058 : Int)) (1369742120553529804230083168034112732730116709969240294158055352915061040 : Int) (by decide) chu2_0 (by decide) (by decide) (by decide)]
  rw [scalLoop_runCh 16 (89767419612596129250022730500283612052200928704544131917942315608641440322883) 89767419612596129250022730500283612052200928704544131917942315608641440322867 ((24533671068980092868630552346995129420983823672304585196401986911541584152128 : Int), (2209357222459695347071765155987393997305194371900031813817445740077485301225 : Int)) ((1990965098527967204955144579158363375065000214901419808962534136107615052339 : Int), (94349233360185622143694284401197335102914172470380850628191989726476920393058 : Int)) (1369742120553529804230083168034112732730116709969240294158055352915061040 : Int) ((7263983490427117408129518121638485560698559702481803384958991237905117384112 : Int), (93109094002033366773627505914545361927166820241279828474630961892312310241801 : Int)) ((39720101907998816516087309369470329891552855969326551109265795298521968672605 : Int), (43654384927254503734211037954166407476194666238452908035427680253851918085004 : Int)) (20900606087547757022553759277864268993074290618427128511933217665329 : Int) (by decide) chu2_1 (by decide) (by decide) (by decide)]
  rw [scalLoop_runCh 16 (89767419612596129250022730500283612052200928704544131917942315608641440322867) 89767419612596129250022730500283612052200928704544131917942315608641440322851 ((7263983490427117408129518121638485560698559702481803384958991237905117384112 : Int), (93109094002033366773627505914545361927166820241279828474630961892312310241801 : Int)) ((39720101907998816516087309369470329891552855969326551109265795298521968672605 : Int), (43654384927254503734211037954166407476194666238452908035427680253851918085004 : Int)) (20900606087547757022553759277864268993074290618427128511933217665329 : Int) ((37796942232071066358676457518924870482193007026528914004372298991835746383808 : Int), (41500641220791808004786750540350768710904110215016898096683828744807363604936 : Int)) ((71654609868178088008542594628913702590099485276897410922518529786147177671428 : Int), (73564052269051223681473206739336188538471762465509555872355031698966285063751 : Int)) (318917939568294632302150867887333206071079873938402229491168482 : Int) (by decide) chu2_2 (by decide) (by decide) (by decide)]
  rw [scalLoop_runCh 16 (89767419612596129250022730500283612052200928704544131917942315608641440322851) 89767419612596129250022730500283612052200928704544131917942315608641440322835 ((37796942232071066358676457518924870482193007026528914004372298991835746383808 : Int), (41500641220791808004786750540350768710904110215016898096683828744807363604936 : Int)) ((71654609868178088008542594628913702590099485276897410922518529786147177671428 : Int), (73564052269051223681473206739336188538471762465509555872355031698966285063751 : Int)) (318917939568294632302150867887333206071079873938402229491168482 : Int) ((23129491278950567785970148376500648032717531886785241126168611397589814798013 : Int), (39307099057880941662675806615359097347682728603444928455093651353540932186784 : Int)) ((24588699454512640235942361693063999030015892896515514040700904525936220273214 : Int), (51001456506214323844279797997575037977784119788853865963265591774989673194891 : Int)) (4866301568119730107149518858144122407090452178015170738085 : Int) (by decide) chu2_3 (by decide) (by decide) (by decide)]
  rw [scalLoop_runCh 16 (89767419612596129250022730500283612052200928704544131917942315608641440322835) 89767419612596129250022730500283612052200928704544131917942315608641440322819 ((23129491278950567785970148376500648032717531886785241126168611397589814798013 : Int), (39307099057880941662675806615359097347682728603444928455093651353540932186784 : Int)) ((24588699454512640235942361693063999030015892896515514040700904525936220273214 : Int), (51001456506214323844279797997575037977784119788853865963265591774989673194891 : Int)) (4866301568119730107149518858144122407090452178015170738085 : Int) ((103585811642593135420456399622448891166663363501464111582343873522977792850477 : Int), (31409815155472435338582344935230131320197144774427706287861757740924066421722 : Int)) ((67479157346225636932112500940824954281659125454674894890373251886740402772155 : Int), (46674426014796561107656277071500754471607129408839834944475561806345636435154 : Int)) (74253869142451936449425031404787024033972964142077190 : Int) (by decide) chu2_4 (by decide) (by decide) (by decide)]
  rw [scalLoop_runCh 16 (89767419612596129250022730500283612052200928704544131917942315608641440322819) 89767419612596129250022730500283612052200928704544131917942315608641440322803 ((103585811642593135420456399622448891166663363501464111582343873522977792850477 : Int), (31409815155472435338582344935230131320197144774427706287861757740924066421722 : Int)) ((67479157346225636932112500940824954281659125454674894890373251886740402772155 : Int), (46674426014796561107656277071500754471607129408839834944475561806345636435154 : Int)) (74253869142451936449425031404787024033972964142077190 : Int) ((115183067000797961901920784023024616254245272923307973061240480176353201301430 : Int), (49763971281659542105744668679966078286699279184665337082856648066049033156975 : Int)) ((81511359263811023693705035289448693649730363577501908879880560636142182442639 : Int), (99390213741885341481777857741685466084402620634865567561424041204053841380839 : Int)) (1133024126319151862326431753613083252471511293671 : Int) (by decide) chu2_5 (by decide) (by decide) (by decide)]
  rw [scalLoop_runCh 16 (89767419612596129250022730500283612052200928704544131917942315608641440322803) 89767419612596129250022730500283612052200928704544131917942315608641440322787 ((115183067000797961901920784023024616254245272923307973061240480176353201301430 : Int), (49763971281659542105744668679966078286699279184665337082856648066049033156975 : Int)) ((81511359263811023693705035289448693649730363577501908879880560636142182442639 : Int), (99390213741885341481777857741685466084402620634865567561424041204053841380839 : Int)) (1133024126319151862326431753613083252471511293671 : Int) ((83611758343266467712438158213251624839283837284463888705796077990149381123587 : Int), (18101124850041158815009009485735144088925930424123803647507665853537289369319 : Int)) ((34823435532659079100556702702863129934888316420584896575470232995439851803146 : Int), (79272314701484411568702638937801239492332550415069260913544687559263551612592 : Int)) (17288576146227292821143062646684009589714222 : Int) (by decide) chu2_6 (by decide) (by decide) (by decide)]
  rw [scalLoop_runCh 16 (89767419612596129250022730500283612052200928704544131917942315608641440322787) 89767419612596129250022730500283612052200928704544131917942315608641440322771 ((83611758343266467712438158213251624839283837284463888705796077990149381123587 : Int), (18101124850041158815009009485735144088925930424123803647507665853537289369319 : Int)) ((34823435532659079100556702702863129934888316420584896575470232995439851803146 : Int), (79272314701484411568702638937801239492332550415069260913544687559263551612592 : Int)) (17288576146227292821143062646684009589714222 : Int) ((64865771952738249789114440545196421582918768733599534045195125031385885360346 : Int), (46211216742671250426576585530459394900178019437443360579906162037052661563266 : Int)) ((31357081177221998604976078468364988723705165274327918772247120414156919536608 : Int), (61409167381574613986268717469326879248320656471624486477960032703234917603649 : Int)) (263802736606251416338242533060974267421 : Int) (by decide) chu2_7 (by decide) (by decide) (by decide)]
  rw [scalLoop_runCh 16 (89767419612596129250022730500283612052200928704544131917942315608641440322771) 89767419612596129250022730500283612052200928704544131917942315608641440322755 ((64865771952738249789114440545196421582918768733599534045195125031385885360346 : Int), (46211216742671250426576585530459394900178019437443360579906162037052661563266 : Int)) ((31357081177221998604976078468364988723705165274327918772247120414156919536608 : Int), (61409167381574613986268717469326879248320656471624486477960032703234917603649 : Int)) (263802736606251416338242533060974267421 : Int) ((82443941766934163206572457262087615792206098199618204196957878539943664124143 : Int), (2933900802655320228371872386727285565009607891164205160519475145640485435973 : Int)) ((71983067579283407502801927944826104191448900854766936572363962065687947811285 : Int), (5392452875669857441952916283134058204039910306164506529252111973772225294800 : Int)) (4025310311985037480747108963943088 : Int) (by decide) chu2_8 (by decide) (by decide) (by decide)]
  rw [scalLoop_runCh 16 (89767419612596129250022730500283612052200928704544131917942315608641440322755) 89767419612596129250022730500283612052200928704544131917942315608641440322739 ((82443941766934163206572457262087615792206098199618204196957878539943664124143 : Int), (2933900802655320228371872386727285565009607891164205160519475145640485435973 : Int)) ((71983067579283407502801927944826104191448900854766936572363962065687947811285 : Int), (5392452875669857441952916283134058204039910306164506529252111973772225294800 : Int)) (4025310311985037480747108963943088 : Int) ((70661691742434068036519986667419907196041281127668848645928138120846244813005 : Int), (100286785047006832236729389681182172543048508833941702006321829459516874054045 : Int)) ((47600225550308361665894927723022209272028396181331218034625321932745148115611 : Int), (10985518785101773119420331905187568986254830978248020097359170326444143495167 : Int)) (61421360961685752574876540587 : Int) (by decide) chu2_9 (by decide) (by decide) (by decide)]
  rw [scalLoop_runCh 16 (89767419612596129250022730500283612052200928704544131917942315608641440322739) 89767419612596129250022730500283612052200928704544131917942315608641440322723 ((70661691742434068036519986667419907196041281127668848645928138120846244813005 : Int), (100286785047006832236729389681182172543048508833941702006321829459516874054045 : Int)) ((47600225550308361665894927723022209272028396181331218034625321932745148115611 : Int), (10985518785101773119420331905187568986254830978248020097359170326444143495167 : Int)) (61421360961685752574876540587 : Int) ((4142520438525914541011842624208056062406705649998025173845082041682105009068 : Int), (87900869236804138087371702825961176259461360124819616238035200569139627100447 : Int)) ((79918964078373648164939926941535381272395463478404026362644696641985627319230 : Int), (8214558688203155497008641685775860993240689012458230033162844288569252192877 : Int)) (937215590846035042951607 : Int) (by decide) chu2_10 (by decide) (by decide) (by decide)]
  rw [scalLoop_runCh 16 (89767419612596129250022730500283612052200928704544131917942315608641440322723) 89767419612596129250022730500283612052200928704544131917942315608641440322707 ((4142520438525914541011842624208056062406705649998025173845082041682105009068 : Int), (87900869236804138087371702825961176259461360124819616238035200569139627100447 : Int)) ((79918964078373648164939926941535381272395463478404026362644696641985627319230 : Int), (8214558688203155497008641685775860993240689012458230033162844288569252192877 : Int)) (937215590846035042951607 : Int) ((106135013536326263233204638779771538367307463662639765758785315935371743257267 : Int), (86028625094535483850261571256264386723357163272666519397289099603747119225149 : Int)) ((51656118264129387293569746294928965559363856685797127957887521768870505505183 : Int), (37111154852005997678060272915228976505132899680244762918873082853188708121644 : Int)) (14300775006805954634 : Int) (by decide) chu2_11 (by decide) (by decide) (by decide)]
  rw [scalLoop_runCh 16 (89767419612596129250022730500283612052200928704544131917942315608641440322707) 89767419612596129250022730500283612052200928704544131917942315608641440322691 ((106135013536326263233204638779771538367307463662639765758785315935371743257267 : Int), (86028625094535483850261571256264386723357163272666519397289099603747119225149 : Int)) ((51656118264129387293569746294928965559363856685797127957887521768870505505183 : Int), (37111154852005997678060272915228976505132899680244762918873082853188708121644 : Int)) (14300775006805954634 : Int) ((113220891681512744492539364929916345410061947313878915456447722256969001660153 : Int), (48632069096637554924274413793295750001160491151445521927536133070043743201297 : Int)) ((530495559085316090937301642492780044420403133758152026852168097286087896822 : Int), (76924272130573653234479769194559909135346878844553071303212657941929447630319 : Int)) (218212509259124 : Int) (by decide) chu2_12 (by decide) (by decide) (by decide)]
  rw [scalLoop_runCh 16 (89767419612596129250022730500283612052200928704544131917942315608641440322691) 89767419612596129250022730500283612052200928704544131917942315608641440322675 ((113220891681512744492539364929916345410061947313878915456447722256969001660153 : Int), (48632069096637554924274413793295750001160491151445521927536133070043743201297 : Int)) ((530495559085316090937301642492780044420403133758152026852168097286087896822 : Int), (76924272130573653234479769194559909135346878844553071303212657941929447630319 : Int)) (218212509259124 : Int) ((67655380319953589260148826173219524241109847135242745518793369102772071675834 : Int), (21029601506232444319368385136955684033497833311867654114423309422350207087357 : Int)) ((32346015842467323255901512794901450590503227636057535352193916840131405061509 : Int), (811613326090879287580025940631024753427432572263626844913445934650072880533 : Int)) (3329658649 : Int) (by decide) chu2_13 (by decide) (by decide) (by decide)]
  rw [scalLoop_runCh 16 (89767419612596129250022730500283612052200928704544131917942315608641440322675) 89767419612596129250022730500283612052200928704544131917942315608641440322659 ((67655380319953589260148826173219524241109847135242745518793369102772071675834 : Int), (21029601506232444319368385136955684033497833311867654114423309422350207087357 : Int)) ((32346015842467323255901512794901450590503227636057535352193916840131405061509 : Int), (811613326090879287580025940631024753427432572263626844913445934650072880533 : Int)) (3329658649 : Int) ((8718136510001795340016406650816398436241492966773881626425334457414292825707 : Int), (47828698862917730813607230394980222348159325738755616817276492989172802309159 : Int)) ((36253442498561866605139046134940567485598087922831080608209335612392683498102 : Int), (3248433222600381175689524459118588999246557901218854354942657801483276559391 : Int)) (50806 : Int) (by decide) chu2_14 (by decide) (by decide) (by decide)]
  rw [scalLoop_runCh 16 (89767419612596129250022730500283612052200928704544131917942315608641440322659) 89767419612596129250022730500283612052200928704544131917942315608641440322643 ((8718136510001795340016406650816398436241492966773881626425334457414292825707 : Int), (47828698862917730813607230394980222348159325738755616817276492989172802309159 : Int)) ((36253442498561866605139046134940567485598087922831080608209335612392683498102 : Int), (3248433222600381175689524459118588999246557901218854354942657801483276559391 : Int)) (50806 : Int) ((100056811408208733275829432225571761443897154861420255832015183193056831248263 : Int), (55225563209553524050574769423916742683973132338171759239001668957831436739955 : Int)) ((90888779158563823146755473862282102363969308959424961308149641532476281635987 : Int), (46201727910540285190454324890558278619756708117972953873730558795650959119923 : Int)) (0 : Int) (by decide) chu2_15 (by decide) (by decide) (by decide)]
  decide!


/-- `scal_mult_n G 1 = G`: one loop iteration. -/
theorem scal_G_one : scal_mult_n G 1 = G := by decide!

/-- The signature the signer produces for digest `m0 = (−lam·Gx) mod n`,
private key 1 and accepted nonce 1. -/
theorem sig_at_m0 :
    get_sig_core 62512749314834907057179725764104169876991258386755245250128305611518307350331 1 1 =
      (1786923099796055303187459650584796350404297561457935043023329830389262585234,
       55066263022277343669578718895168534326250603453777594175500187360389116729240) := by
  decide!

/-!
## Claim theorems
-/

/-- C2: the range guard on line 187 tests `sf >= O` twice (a copy-paste
slip of `sf` for `Rx`) and never bounds `Rx` from above, so the signature
`(1, n)` — whose `r` component `n` lies outside `[1, n−1]` — passes the
guard instead of aborting; verification continues through the curve checks
and the digest/point arithmetic and returns an ordinary `False`. -/
theorem C2_range_guard_bypassed : ver_sig 1 G (1, O) = some false := by
  simp only [ver_sig, scal_G_O]
  decide!

/-- C3: group-law additivity fails for the on-curve point `G` and the
non-negative scalars `k1 = 1`, `k2 = n − lam`: `k2·G` is `−lam·G`, whose
`y`-coordinate is `p − Gy` while its `x`-coordinate differs from `Gx`, so
the outer addition takes the mutual-inverse branch (line 90, a `y`-only
test) and returns the identity, although `(1 + k2)·G` is not the
identity. -/
theorem C3_additivity_fails :
    scal_mult_n G (1 + (O - lam)) ≠
      elip_add (scal_mult_n G 1) (scal_mult_n G (O - lam)) := by
  rw [(by decide :
        (1 : Int) + (O - lam) =
          78074008874160198520644763525212887401909906723592317393988542598630163514320),
      (by decide :
        O - lam =
          78074008874160198520644763525212887401909906723592317393988542598630163514319),
      scal_G_one, scal_G_k2, scal_G_k3]
  decide!

/-- C1: sign/verify round-trip fails at the digest
`m0 = (−lam·Gx) mod n`, private key `sk = 1` and nonce `k = 1` (accepted
by the retry loop: `0 < 1 < n` and `(1·G).x mod n = Gx ≠ 0`): inside
`ver_sig`, `u1·G` and `u2·pk` land on points with `y(P1) = p − y(P2)` but
different `x` (arranged through the GLV scalar `lam`), the `y`-only guard
of `elip_add` returns the identity, and verification answers `False`
where the group law would give `x(1·G) = Gx = r`, i.e. `True`. -/
theorem C1_roundtrip_fails :
    (0 < (1 : Int) ∧ (1 : Int) < O ∧ (scal_mult_n G 1).1 % O ≠ 0) ∧
    ver_sig 62512749314834907057179725764104169876991258386755245250128305611518307350331
      (scal_mult_n G 1)
      (get_sig_core 62512749314834907057179725764104169876991258386755245250128305611518307350331 1 1) =
      some false := by
  refine ⟨⟨by decide, by decide, by rw [scal_G_one]; decide⟩, ?_⟩
  rw [scal_G_one, sig_at_m0]
  simp only [ver_sig, scal_G_O]
  rw [(by decide! :
        invert_n 1786923099796055303187459650584796350404297561457935043023329830389262585234 O =
          102026546797562048962315853059509259841821109604145697643682557055341775949538)]
  rw [(by decide :
        (62512749314834907057179725764104169876991258386755245250128305611518307350331 : Int) *
            102026546797562048962315853059509259841821109604145697643682557055341775949538 % O =
          26024669624720066173548254508404295800636635574530772464662847532876721171440)]
  rw [(by decide :
        (55066263022277343669578718895168534326250603453777594175500187360389116729240 : Int) *
            102026546797562048962315853059509259841821109604145697643682557055341775949538 % O =
          89767419612596129250022730500283612052200928704544131917942315608641440322898)]
  rw [scal_G_u1, scal_G_u2]
  decide!

/-- C4 counterexample: `(Gx, Gy)` and `((beta·Gx) mod p, p − Gy)` are both
on the curve and satisfy the guard's `y`-condition `p1.y = p − p2.y`, yet
their `x`-coordinates differ (the second point is `−lam·G`, the image of
`−G` under the GLV endomorphism `x ↦ beta·x`); `elip_add` still returns
the identity for them. -/
theorem C4_implication_cex :
    onCurve (Gx, Gy) ∧ onCurve ((beta * Gx) % p, p - Gy) ∧
    (Gx, Gy).2 = p - ((beta * Gx) % p, p - Gy).2 ∧
    (Gx, Gy).1 ≠ ((beta * Gx) % p, p - Gy).1 ∧
    elip_add (Gx, Gy) ((beta * Gx) % p, p - Gy) = (0, 0) := by
  decide!

/-- C4 amended: the first guard of `elip_add` tests only
`p1.y = p − p2.y` and returns the identity whenever that equation holds,
whether or not `p1.x = p2.x`; the identity return agrees with the group
law only in the mutual-inverse case `p1.x = p2.x`. -/
theorem C4_y_guard_returns_identity (p1 p2 : Int × Int) (h : p1.2 = p - p2.2) :
    elip_add p1 p2 = (0, 0) := by
  unfold elip_add
  rw [if_pos h]

theorem C4_witness :
    ((1 : Int), (3 : Int)).2 = p - ((5 : Int), p - 3).2 ∧
    elip_add (1, 3) (5, p - 3) = (0, 0) :=
  ⟨by decide, C4_y_guard_returns_identity (1, 3) (5, p - 3) (by decide)⟩

/-- C5 counterexample: for digest `n − Gx`, private key 1 and the accepted
entropy draw `R = 1` (`0 < 1 < n` and `(1·G).x mod n = Gx ≠ 0`), the
signer returns `s = 0`, which is outside `[1, n−1]`. -/
theorem C5_zero_s_cex :
    (0 < (1 : Int) ∧ (1 : Int) < O ∧ (scal_mult_n G 1).1 % O ≠ 0) ∧
    get_sig_core (O - Gx) 1 1 =
      (0, 55066263022277343669578718895168534326250603453777594175500187360389116729240) := by
  refine ⟨⟨by decide, by decide, by rw [scal_G_one]; decide⟩, ?_⟩
  decide!

/-- C5 amended: for every digest, key and accepted draw, the returned pair
`(s, r)` has `r ∈ [1, n−1]` and `s ∈ [0, n−1]`; `s` can actually be `0`
(the signer never re-draws on `s = 0`). -/
theorem C5_sig_ranges (m sk R : Int) (_h1 : 0 < R) (_h2 : R < O)
    (h3 : (scal_mult_n G R).1 % O ≠ 0) :
    1 ≤ (get_sig_core m sk R).2 ∧ (get_sig_core m sk R).2 ≤ O - 1 ∧
    0 ≤ (get_sig_core m sk R).1 ∧ (get_sig_core m sk R).1 ≤ O - 1 := by
  unfold get_sig_core
  dsimp only
  have hO : (0 : Int) < O := by decide
  have hr0 : 0 ≤ (scal_mult_n G R).1 % O := Int.emod_nonneg _ (by decide)
  have hr1 : (scal_mult_n G R).1 % O < O := Int.emod_lt_of_pos _ hO
  have hs0 : 0 ≤ ((m + (scal_mult_n G R).1 % O * sk) % O * invert_n R O) % O :=
    Int.emod_nonneg _ (by decide)
  have hs1 : ((m + (scal_mult_n G R).1 % O * sk) % O * invert_n R O) % O < O :=
    Int.emod_lt_of_pos _ hO
  refine ⟨?_, ?_, hs0, by omega⟩
  · rcases hr0.lt_or_eq with h | h
    · omega
    · exact absurd h.symm h3
  · omega

theorem C5_witness :
    (0 < (1 : Int) ∧ (1 : Int) < O ∧ (scal_mult_n G 1).1 % O ≠ 0) ∧
    (1 ≤ (get_sig_core 0 0 1).2 ∧ (get_sig_core 0 0 1).2 ≤ O - 1 ∧
      0 ≤ (get_sig_core 0 0 1).1 ∧ (get_sig_core 0 0 1).1 ≤ O - 1) :=
  ⟨⟨by decide, by decide, by rw [scal_G_one]; decide⟩,
    C5_sig_ranges 0 0 1 (by decide) (by decide) (by rw [scal_G_one]; decide)⟩

/-- C9: `elip_add` treats its second argument as the identity whenever the
second argument's x-coordinate is 0, regardless of its y-coordinate — the
guard on line 94 reads `p2[0] == p2[0] == 0`, which only constrains
`p2[0]` — while the first argument is only treated as the identity when
both of its coordinates are 0 (line 92: `p1[0] == p1[1] == 0`).  So when
neither earlier guard fires and `p2.x = 0`, the result is `p1`
unchanged. -/
theorem C9_asymmetric_identity (p1 p2 : Int × Int)
    (h1 : p1.2 ≠ p - p2.2) (h2 : p1 ≠ (0, 0)) (h0 : p2.1 = 0) :
    elip_add p1 p2 = p1 := by
  obtain ⟨a, b⟩ := p1
  obtain ⟨c, d⟩ := p2
  simp only [ne_eq, Prod.mk.injEq, not_and] at h2
  unfold elip_add
  dsimp only at h1 h0 ⊢
  rw [if_neg h1, if_neg (fun hc => h2 (hc.1.trans hc.2) hc.2), if_pos ⟨rfl, h0⟩]

theorem C9_witness :
    ((5 : Int), (7 : Int)).2 ≠ p - ((0 : Int), (9 : Int)).2 ∧
    ((5 : Int), (7 : Int)) ≠ ((0 : Int), (0 : Int)) ∧
    ((0 : Int), (9 : Int)).1 = 0 ∧
    elip_add (5, 7) (0, 9) = (5, 7) :=
  ⟨by decide, by decide, rfl,
    C9_asymmetric_identity (5, 7) (0, 9) (by decide) (by decide) rfl⟩

/-- C10: on an integer input, `sha256` and `ripemd160` first encode it as
exactly 32 big-endian bytes, so both fail (Python: `OverflowError` from
`to_bytes`, modeled as `none`) for every integer outside `[0, 2^256)` and
return the digest (`h`/`h2` models `int(hexdigest, 16)`) of the encoding
for in-range integers; bytes and string inputs are always hashed. -/
theorem C10_digest_input_range (h h2 : List Nat → Nat) (x : Int) :
    ((x < 0 ∨ 2 ^ 256 ≤ x) → sha256 h (.int x) = none ∧ ripemd160 h2 (.int x) = none) ∧
    (0 ≤ x → x < 2 ^ 256 →
      sha256 h (.int x) = some (h (toBytesBE32 x.toNat)) ∧
      ripemd160 h2 (.int x) = some (h2 (toBytesBE32 x.toNat))) ∧
    (∀ b, sha256 h (.bytes b) = some (h b) ∧ ripemd160 h2 (.bytes b) = some (h2 b)) ∧
    (∀ s, sha256 h (.str s) = some (h (s.toUTF8.toList.map UInt8.toNat)) ∧
      ripemd160 h2 (.str s) = some (h2 (s.toUTF8.toList.map UInt8.toNat))) := by
  refine ⟨?_, ?_, fun b => ⟨rfl, rfl⟩, fun s => ⟨rfl, rfl⟩⟩
  · intro hx
    have hc : ¬ (0 ≤ x ∧ x < 2 ^ 256) := by
      rcases hx with hlt | hge
      · exact fun hand => absurd hand.1 (not_le.mpr hlt)
      · exact fun hand => absurd hand.2 (not_lt.mpr hge)
    constructor
    · simp only [sha256]
      rw [if_neg hc]
    · simp only [ripemd160]
      rw [if_neg hc]
  · intro h0 h1
    constructor
    · simp only [sha256]
      rw [if_pos ⟨h0, h1⟩]
    · simp only [ripemd160]
      rw [if_pos ⟨h0, h1⟩]

theorem C10_witness :
    sha256 (fun _ => 0) (.int (-1)) = none ∧
    sha256 (fun _ => 0) (.int 5) = some ((fun _ => 0) (toBytesBE32 (5 : Int).toNat)) :=
  ⟨((C10_digest_input_range (fun _ => 0) (fun _ => 0) (-1)).1 (Or.inl (by decide))).1,
    ((C10_digest_input_range (fun _ => 0) (fun _ => 0) 5).2.1 (by decide) (by decide)).1⟩

end Mesh
